import Mathlib

/-!
# Verification development for two MPICH components

* `src/mpi/coll/ineighbor_alltoallw/ineighbor_alltoallw_tsp_linear_algos.h`:
  the linear neighbor exchange built on the transport-scheduling engine;
* `src/mpi/datatype/typerep/src/typerep_yaksa_create.c`: the datatype
  constructors that keep the MPICH datatype metadata in step with yaksa.

C integers (`int`, `MPI_Aint`, handles, addresses) are embedded as `Int`,
`uintptr_t` results as `Nat`; C arrays passed as pointers are embedded as
functions from the index to the element.  `MPI_Aint` is a 64-bit two's
complement integer: what the datatype constructors compute in `MPI_Aint`
(products, sums, the conversion of a `uintptr_t`) is reduced into its range by
`wrap_aint`, and the conversions the source writes out (`(int) count`,
`n * sizeof(int)`) are embedded with their wrap.  Addresses are not reduced.
Functions of the repository that the two files call but do not define are
fields of an environment record.
-/

namespace Mpich

/-! ## Part 1: linear neighbor exchange -/

/-- The value of `MPI_SUCCESS`. -/
def MPI_SUCCESS : Int := 0

/-- Kind of an elementary action of a schedule, as far as the linear algorithm
uses them. -/
inductive VtxKind where
  | isend
  | irecv
deriving DecidableEq, Repr

/-- One vertex of a schedule: the kind, the operands handed to
`MPIR_TSP_sched_isend` / `MPIR_TSP_sched_irecv` and the declared predecessors. -/
structure Vertex where
  kind : VtxKind
  buf : Int
  count : Int
  datatype : Int
  peer : Int
  tag : Int
  in_vtcs : List Int
deriving DecidableEq, Repr

/-- Modelled from the spec: the type `MPIR_TSP_sched_t` is declared outside the
sources; the spec describes a schedule as an ordered collection of vertices, a
vertex index being the position in that collection. -/
structure MPIR_TSP_sched_t where
  vtcs : List Vertex
deriving DecidableEq, Repr

/-- Calls that leave the two routines, in the order they are made. -/
inductive Call where
  | MPIR_Topo_canon_nhb_count
  | MPIR_CHKLMEM_MALLOC (nbytes : Int)
  | MPIR_Topo_canon_nhb (indegree outdegree : Int)
  | MPIR_Sched_next_tag
  | MPIR_TSP_sched_isend (v : Vertex)
  | MPIR_TSP_sched_irecv (v : Vertex)
  | MPL_malloc_sched
  | MPIR_TSP_sched_create
  | MPIR_TSP_sched_start
deriving DecidableEq, Repr

/-- The services of the repository the two routines consume and whose code is
outside the sources.  `κ` is the state of the communicator object `*comm_ptr`.

* `MPIR_Topo_canon_nhb_count comm = (mpi_errno, indegree, outdegree, weighted)`;
* `MPIR_Topo_canon_nhb comm indegree outdegree = (mpi_errno, srcs, dsts)`;
* `MPIR_Sched_next_tag comm = (mpi_errno, tag, comm')`, the tag pool being state of
  the communicator;
* `MPIR_CHKLMEM_MALLOC nbytes` is the error code left by the allocation macro
  (`MPI_SUCCESS` when the allocation succeeds);
* `MPL_malloc_sched` tells whether the allocation of the schedule object
  succeeds;
* `MPIR_TSP_sched_start sched comm = (mpi_errno, req)`. -/
structure Services (κ : Type) where
  MPIR_Topo_canon_nhb_count : κ → Int × Int × Int × Int
  MPIR_Topo_canon_nhb : κ → Int → Int → Int × (Nat → Int) × (Nat → Int)
  MPIR_Sched_next_tag : κ → Int × Int × κ
  MPIR_CHKLMEM_MALLOC : Int → Int
  MPL_malloc_sched : Bool
  MPIR_TSP_sched_start : MPIR_TSP_sched_t → κ → Int × Option Int

/-- The state the scheduling routine works on: the communicator, the schedule
being populated and the log of the calls made so far. -/
structure World (κ : Type) where
  comm : κ
  sched : MPIR_TSP_sched_t
  trace : List Call

/-- Size of a C `int` in bytes. -/
def sizeof_int : Int := 4

/-- The argument `n * sizeof(int)` of an allocation, computed in `size_t`
(64 bits, wrapping). -/
def nbytes_int (n : Int) : Int := (n * sizeof_int) % 2 ^ 64

/-- Modelled from the spec: the builder `append(kind, operands,
predecessor_indices) → vertex_index` behind `MPIR_TSP_sched_isend` and
`MPIR_TSP_sched_irecv` is outside the sources.  The predecessors are the first
`n_in_vtcs` entries of `in_vtcs` (`NULL` is the empty list); they must be
indices of vertices already in the schedule, otherwise nothing is recorded and
`-1` is returned (`InvalidDependency`).  On success the vertex is put at the
end and its index is returned. -/
def sched_append (kind : VtxKind) (buf count datatype peer tag : Int)
    (sched : MPIR_TSP_sched_t) (n_in_vtcs : Int) (in_vtcs : List Int) :
    Int × MPIR_TSP_sched_t :=
  let preds := in_vtcs.take n_in_vtcs.toNat
  if preds.all (fun p => decide (0 ≤ p ∧ p < (sched.vtcs.length : Int))) then
    ((sched.vtcs.length : Int),
      { vtcs := sched.vtcs ++ [Vertex.mk kind buf count datatype peer tag preds] })
  else
    (-1, sched)

/-- Modelled from the spec: `MPIR_TSP_sched_isend(buf, count, dt, dest, tag,
comm, sched, n_in_vtcs, in_vtcs)`, an `append` of a send vertex. -/
def MPIR_TSP_sched_isend {κ : Type} (buf count dt dest tag : Int) (w : World κ)
    (n_in_vtcs : Int) (in_vtcs : List Int) : Int × World κ :=
  let r := sched_append VtxKind.isend buf count dt dest tag w.sched n_in_vtcs in_vtcs
  (r.1, { comm := w.comm, sched := r.2,
          trace := w.trace ++ [Call.MPIR_TSP_sched_isend
            (Vertex.mk VtxKind.isend buf count dt dest tag (in_vtcs.take n_in_vtcs.toNat))] })

/-- Modelled from the spec: `MPIR_TSP_sched_irecv(buf, count, dt, source, tag,
comm, sched, n_in_vtcs, in_vtcs)`, an `append` of a receive vertex. -/
def MPIR_TSP_sched_irecv {κ : Type} (buf count dt source tag : Int) (w : World κ)
    (n_in_vtcs : Int) (in_vtcs : List Int) : Int × World κ :=
  let r := sched_append VtxKind.irecv buf count dt source tag w.sched n_in_vtcs in_vtcs
  (r.1, { comm := w.comm, sched := r.2,
          trace := w.trace ++ [Call.MPIR_TSP_sched_irecv
            (Vertex.mk VtxKind.irecv buf count dt source tag (in_vtcs.take n_in_vtcs.toNat))] })

/-- Modelled from the spec: the macro `MPIR_ERR_CHECK(mpi_errno)` is outside the
sources.  A construction-time error aborts the routine and is handed to the
caller: the macro jumps to `fn_fail` exactly when `mpi_errno` is not
`MPI_SUCCESS`, and the routine then returns `mpi_errno` as it stands. -/
abbrev MPIR_ERR_CHECK (mpi_errno : Int) : Prop := mpi_errno ≠ MPI_SUCCESS

/-- Record a call in the log. -/
def World.log {κ : Type} (w : World κ) (c : Call) : World κ :=
  { comm := w.comm, sched := w.sched, trace := w.trace ++ [c] }

/-- The loop `for (k = 0; k < outdegree; ++k)` of the scheduling routine: the
result of `MPIR_TSP_sched_isend` is dropped, as in the source. -/
def send_loop {κ : Type} (sendbuf : Int) (sendcounts sdispls sendtypes dsts : Nat → Int)
    (tag : Int) (outdegree : Int) (w : World κ) : World κ :=
  (List.range outdegree.toNat).foldl
    (fun w k =>
      let sb := sendbuf + sdispls k
      (MPIR_TSP_sched_isend sb (sendcounts k) (sendtypes k) (dsts k) tag w 0 []).2)
    w

/-- The loop `for (l = 0; l < indegree; ++l)` of the scheduling routine. -/
def recv_loop {κ : Type} (recvbuf : Int) (recvcounts rdispls recvtypes srcs : Nat → Int)
    (tag : Int) (indegree : Int) (w : World κ) : World κ :=
  (List.range indegree.toNat).foldl
    (fun w l =>
      let rb := recvbuf + rdispls l
      (MPIR_TSP_sched_irecv rb (recvcounts l) (recvtypes l) (srcs l) tag w 0 []).2)
    w

/-- Routine to schedule the linear algorithm for neighbor_alltoallw.  Returns
`mpi_errno` and the state it leaves. -/
def MPIR_TSP_Ineighbor_alltoallw_sched_allcomm_linear {κ : Type} (S : Services κ)
    (sendbuf : Int) (sendcounts sdispls sendtypes : Nat → Int)
    (recvbuf : Int) (recvcounts rdispls recvtypes : Nat → Int)
    (w : World κ) : Int × World κ :=
  let cnt := S.MPIR_Topo_canon_nhb_count w.comm
  let indegree := cnt.2.1
  let outdegree := cnt.2.2.1
  let w1 := w.log Call.MPIR_Topo_canon_nhb_count
  if MPIR_ERR_CHECK cnt.1 then (cnt.1, w1) else
  let m1 := S.MPIR_CHKLMEM_MALLOC (nbytes_int indegree)
  let w2 := w1.log (Call.MPIR_CHKLMEM_MALLOC (nbytes_int indegree))
  if MPIR_ERR_CHECK m1 then (m1, w2) else
  let m2 := S.MPIR_CHKLMEM_MALLOC (nbytes_int outdegree)
  let w3 := w2.log (Call.MPIR_CHKLMEM_MALLOC (nbytes_int outdegree))
  if MPIR_ERR_CHECK m2 then (m2, w3) else
  let nhb := S.MPIR_Topo_canon_nhb w3.comm indegree outdegree
  let srcs := nhb.2.1
  let dsts := nhb.2.2
  let w4 := w3.log (Call.MPIR_Topo_canon_nhb indegree outdegree)
  if MPIR_ERR_CHECK nhb.1 then (nhb.1, w4) else
  let nt := S.MPIR_Sched_next_tag w4.comm
  let tag := nt.2.1
  let w5 : World κ :=
    { comm := nt.2.2, sched := w4.sched, trace := w4.trace ++ [Call.MPIR_Sched_next_tag] }
  if MPIR_ERR_CHECK nt.1 then (nt.1, w5) else
  let w6 := send_loop sendbuf sendcounts sdispls sendtypes dsts tag outdegree w5
  let w7 := recv_loop recvbuf recvcounts rdispls recvtypes srcs tag indegree w6
  (nt.1, w7)

/-- Modelled from the spec: `MPIR_TSP_sched_create(sched, false)` is outside the
sources; a schedule is created empty. -/
def MPIR_TSP_sched_create : MPIR_TSP_sched_t := { vtcs := [] }

/-- What the non-blocking entry point leaves behind: its return value, the
request `*req` (`none` is `NULL`), the communicator and the log of calls. -/
structure LinearResult (κ : Type) where
  mpi_errno : Int
  req : Option Int
  comm : κ
  sched : MPIR_TSP_sched_t
  trace : List Call

/-- Non-blocking linear algo based neighbor_alltoallw.  `none` is the abort of
`MPIR_Assert(sched != NULL)`. -/
def MPIR_TSP_Ineighbor_alltoallw_allcomm_linear {κ : Type} (S : Services κ)
    (sendbuf : Int) (sendcounts sdispls sendtypes : Nat → Int)
    (recvbuf : Int) (recvcounts rdispls recvtypes : Nat → Int)
    (comm : κ) (_req : Option Int) (trace : List Call) : Option (LinearResult κ) :=
  let req : Option Int := none
  let t1 := trace ++ [Call.MPL_malloc_sched]
  if ¬ S.MPL_malloc_sched then none else
  let sched := MPIR_TSP_sched_create
  let t2 := t1 ++ [Call.MPIR_TSP_sched_create]
  let r := MPIR_TSP_Ineighbor_alltoallw_sched_allcomm_linear S sendbuf sendcounts sdispls
    sendtypes recvbuf recvcounts rdispls recvtypes { comm := comm, sched := sched, trace := t2 }
  if MPIR_ERR_CHECK r.1 then
    some { mpi_errno := r.1, req := req, comm := r.2.comm, sched := r.2.sched,
           trace := r.2.trace }
  else
  let st := S.MPIR_TSP_sched_start r.2.sched r.2.comm
  -- `MPIR_ERR_CHECK(mpi_errno)`: `fn_fail` goes on to `fn_exit`, the return is the same
  some { mpi_errno := st.1, req := st.2, comm := r.2.comm, sched := r.2.sched,
         trace := r.2.trace ++ [Call.MPIR_TSP_sched_start] }

/-! ## Mock transport for the ring scenario -/

/-- Modelled from the spec: the executor and the transport substrate are outside
the sources.  The mock transport of the ring scenario finds, for a receive
posted at rank `dest` with peer `source` and tag `tag`, the first send vertex in
the schedule of `source` whose peer is `dest` and whose tag is `tag`. -/
def mock_match (sched : MPIR_TSP_sched_t) (dest tag : Int) : Option Vertex :=
  sched.vtcs.find? (fun v => decide (v.kind = VtxKind.isend ∧ v.peer = dest ∧ v.tag = tag))

/-- Modelled from the spec: storing the elements of a message.  Memory is a map
from the address of an `int` object to its value; element `i` of a message lies
`i * sizeof(int)` bytes after the start of the buffer. -/
def mock_store (mem : Int → Int) (buf : Int) (n : Nat) (src : Int → Int) (sbuf : Int) :
    Int → Int :=
  fun a =>
    if (List.range n).any (fun i => decide (a = buf + (i : Int) * sizeof_int)) then
      src (sbuf + (a - buf))
    else mem a

/-- Modelled from the spec: the mock transport completing one vertex of rank
`r`.  A receive vertex takes the elements of the matching send out of the memory
of the sending rank; a send vertex leaves the memory of its own rank as it is. -/
def mock_complete (scheds : Nat → MPIR_TSP_sched_t) (mems : Nat → Int → Int) (r : Nat)
    (mem : Int → Int) (v : Vertex) : Int → Int :=
  match v.kind with
  | VtxKind.isend => mem
  | VtxKind.irecv =>
    match mock_match (scheds v.peer.toNat) (r : Int) v.tag with
    | some s => mock_store mem v.buf (min v.count s.count).toNat (mems v.peer.toNat) s.buf
    | none => mem

/-- Modelled from the spec: running the schedule of rank `r` on the mock
transport, the vertices being completed in ascending index order. -/
def mock_run (scheds : Nat → MPIR_TSP_sched_t) (mems : Nat → Int → Int) (r : Nat) :
    Int → Int :=
  (scheds r).vtcs.foldl (mock_complete scheds mems r) (mems r)

/-- The services seen at rank `r` of a ring of `n` ranks: one incoming edge from
the left neighbour, one outgoing edge to the right neighbour, and the tag `tag`
drawn at every rank.  The communicator state is the rank. -/
def ring_services (n : Nat) (tag : Int) : Services Nat where
  MPIR_Topo_canon_nhb_count := fun _ => (MPI_SUCCESS, 1, 1, 0)
  MPIR_Topo_canon_nhb := fun r _ _ =>
    (MPI_SUCCESS, fun _ => ((r : Int) - 1) % (n : Int), fun _ => ((r : Int) + 1) % (n : Int))
  MPIR_Sched_next_tag := fun r => (MPI_SUCCESS, tag, r)
  MPIR_CHKLMEM_MALLOC := fun _ => MPI_SUCCESS
  MPL_malloc_sched := true
  MPIR_TSP_sched_start := fun _ _ => (MPI_SUCCESS, some 0)

/-- The schedule rank `r` of the ring builds with the scheduling routine, for
one element of datatype `dt` at `sendbuf r + sdispl r` and room for one element
at `recvbuf r + rdispl r`. -/
def ring_sched (n : Nat) (tag dt : Int) (sendbuf sdispl recvbuf rdispl : Nat → Int)
    (r : Nat) : MPIR_TSP_sched_t :=
  (MPIR_TSP_Ineighbor_alltoallw_sched_allcomm_linear (ring_services n tag)
    (sendbuf r) (fun _ => 1) (fun _ => sdispl r) (fun _ => dt)
    (recvbuf r) (fun _ => 1) (fun _ => rdispl r) (fun _ => dt)
    { comm := r, sched := MPIR_TSP_sched_create, trace := [] }).2.sched

/-! ## Part 2: datatype constructors over yaksa -/

/-- Size of a `yaksa_type_t` in bytes. -/
def sizeof_yaksa_type_t : Int := 8

/-- The value of `INT_MAX` for a 32-bit `int`. -/
def INT_MAX : Int := 2147483647

/-- The error class `MPI_ERR_INTERN`. -/
def MPI_ERR_INTERN : Int := 16

/-- The conversion `(int) x` of an `MPI_Aint` (two's complement, 32 bits). -/
def cast_int (x : Int) : Int := (x + 2 ^ 31) % 2 ^ 32 - 2 ^ 31

/-- The value an `MPI_Aint` takes when `x` is computed in it or converted to it
(two's complement, 64 bits; `9223372036854775808` is `2^63` and
`18446744073709551616` is `2^64`). -/
def wrap_aint (x : Int) : Int :=
  (x + 9223372036854775808) % 18446744073709551616 - 9223372036854775808

/-- The integer `x` is a value of `MPI_Aint`. -/
abbrev in_aint_range (x : Int) : Prop :=
  -9223372036854775808 ≤ x ∧ x < 9223372036854775808

/-- The fields of `MPIR_Datatype` the constructors touch.  `handle` is
`typerep.handle`, `num_contig_blocks` is `typerep.num_contig_blocks`. -/
structure MPIR_Datatype where
  handle : Int
  is_contig : Int
  num_contig_blocks : Int
  size : Int
  lb : Int
  extent : Int
  ub : Int
  true_lb : Int
  true_ub : Int
  n_builtin_elements : Int
  builtin_element_size : Int
  basic_type : Int
deriving DecidableEq, Repr

/-- What the constructors use and the sources do not define: the handle macros
of MPICH, the handle table, the platform fact `sizeof(MPI_Aint) == sizeof(int)`,
the allocator and the yaksa type engine.  A yaksa function returns its return
code `rc` first and then what it writes through its output pointers. -/
structure TypeEnv where
  MPI_DATATYPE_NULL : Int
  HANDLE_IS_BUILTIN : Int → Bool
  MPIR_Datatype_get_basic_size : Int → Int
  MPIR_Datatype_get_ptr : Int → MPIR_Datatype
  MPII_Typerep_get_yaksa_type : Int → Int
  aint_is_int : Bool
  MPL_malloc : Int → Bool
  yaksa_iov_len : Int → Int → Int × Nat
  yaksa_type_get_size : Int → Int × Nat
  yaksa_type_get_extent : Int → Int × Int × Int
  yaksa_type_get_true_extent : Int → Int × Int × Int
  yaksa_type_create_vector : Int → Int → Int → Int → Int × Int
  yaksa_type_create_hvector : Int → Int → Int → Int → Int × Int
  yaksa_type_create_contig : Int → Int → Int × Int
  yaksa_type_create_dup : Int → Int × Int
  yaksa_type_create_indexed_block : Int → Int → (Nat → Int) → Int → Int × Int
  yaksa_type_create_hindexed_block : Int → Int → (Nat → Int) → Int → Int × Int
  yaksa_type_create_indexed : Int → (Nat → Int) → (Nat → Int) → Int → Int × Int
  yaksa_type_create_hindexed : Int → (Nat → Int) → (Nat → Int) → Int → Int × Int
  yaksa_type_create_resized : Int → Int → Int → Int × Int
  yaksa_type_create_struct : Int → (Nat → Int) → (Nat → Int) → (Nat → Int) → Int × Int

/-- Outcome of a constructor: `ok newtype` is a return of `MPI_SUCCESS` with the
contents of `*newtype`; `error e` is a return of the error code `e` (the
contents of `*newtype` are then not tracked); `abort` is a failed `MPIR_Assert`
or a store through a pointer the allocator returned as `NULL`. -/
inductive TypeResult where
  | ok (newtype : MPIR_Datatype)
  | error (mpi_errno : Int)
  | abort
deriving DecidableEq, Repr

/-- Internal helper function.  `oldtype` is a datatype handle, `count` is the
count of `oldtype` as a unit.  The block count and the size yaksa writes as
`uintptr_t` are read back as `MPI_Aint`; the sums and the product are computed
in `MPI_Aint`. -/
def update_yaksa_type (E : TypeEnv) (newtype : MPIR_Datatype) (oldtype : Int) (count : Int) :
    TypeResult :=
  let dt := newtype.handle
  let cnt : Int := 2
  let r1 := E.yaksa_iov_len cnt dt
  if r1.1 ≠ 0 then TypeResult.error MPI_ERR_INTERN else
  let num_contig_blocks : Nat := r1.2
  let nt1 : MPIR_Datatype :=
    if num_contig_blocks = 1 then
      { newtype with is_contig := 1, num_contig_blocks := 1 }
    else
      { newtype with is_contig := 0,
                     num_contig_blocks := Int.tdiv (wrap_aint (num_contig_blocks : Int)) cnt }
  let r2 := E.yaksa_type_get_size dt
  if r2.1 ≠ 0 then TypeResult.error MPI_ERR_INTERN else
  let nt2 : MPIR_Datatype := { nt1 with size := wrap_aint (r2.2 : Int) }
  let r3 := E.yaksa_type_get_extent dt
  if r3.1 ≠ 0 then TypeResult.error MPI_ERR_INTERN else
  let nt3 : MPIR_Datatype := { nt2 with lb := r3.2.1, extent := r3.2.2 }
  let nt4 : MPIR_Datatype := { nt3 with ub := wrap_aint (nt3.lb + nt3.extent) }
  let r4 := E.yaksa_type_get_true_extent dt
  if r4.1 ≠ 0 then TypeResult.error MPI_ERR_INTERN else
  let true_extent := r4.2.2
  let nt5 : MPIR_Datatype := { nt4 with true_lb := r4.2.1 }
  let nt6 : MPIR_Datatype := { nt5 with true_ub := wrap_aint (nt5.true_lb + true_extent) }
  if count = 0 then
    TypeResult.ok nt6
  else if E.HANDLE_IS_BUILTIN oldtype then
    let el_sz := E.MPIR_Datatype_get_basic_size oldtype
    TypeResult.ok { nt6 with n_builtin_elements := count, builtin_element_size := el_sz,
                             basic_type := oldtype }
  else
    let old_dtp := E.MPIR_Datatype_get_ptr oldtype
    TypeResult.ok { nt6 with n_builtin_elements := wrap_aint (count * old_dtp.n_builtin_elements),
                             builtin_element_size := old_dtp.builtin_element_size,
                             basic_type := old_dtp.basic_type }

/-- The check `MPIR_Assert(a[i] <= INT_MAX)` for every `i < count`. -/
def all_le_INT_MAX (count : Int) (a : Nat → Int) : Bool :=
  (List.range count.toNat).all (fun i => decide (a i ≤ INT_MAX))

/-- The array `p[i] = a[i]` of `int` made from an array of `MPI_Aint`. -/
def to_int_array (a : Nat → Int) : Nat → Int := fun i => cast_int (a i)

/-- The loop `old_ct = 0; for (i = 0; i < count; i++) old_ct += a[i];`, the sum
being kept in an `MPI_Aint`. -/
def sum_blocklengths (count : Int) (a : Nat → Int) : Int :=
  (List.range count.toNat).foldl (fun old_ct i => wrap_aint (old_ct + a i)) 0

/-- `MPIR_Typerep_create_vector(count, blocklength, stride, oldtype, newtype)`. -/
def MPIR_Typerep_create_vector (E : TypeEnv) (count blocklength stride : Int) (oldtype : Int)
    (newtype : MPIR_Datatype) : TypeResult :=
  let type := E.MPII_Typerep_get_yaksa_type oldtype
  if ¬ (count ≤ INT_MAX) then TypeResult.abort else
  if ¬ (blocklength ≤ INT_MAX) then TypeResult.abort else
  if ¬ (stride ≤ INT_MAX) then TypeResult.abort else
  let rc := E.yaksa_type_create_vector (cast_int count) (cast_int blocklength)
    (cast_int stride) type
  if rc.1 ≠ 0 then TypeResult.error MPI_ERR_INTERN else
  update_yaksa_type E { newtype with handle := rc.2 } oldtype (wrap_aint (count * blocklength))

/-- `MPIR_Typerep_create_hvector(count, blocklength, stride, oldtype, newtype)`. -/
def MPIR_Typerep_create_hvector (E : TypeEnv) (count blocklength stride : Int) (oldtype : Int)
    (newtype : MPIR_Datatype) : TypeResult :=
  let type := E.MPII_Typerep_get_yaksa_type oldtype
  if ¬ (count ≤ INT_MAX) then TypeResult.abort else
  if ¬ (blocklength ≤ INT_MAX) then TypeResult.abort else
  let rc := E.yaksa_type_create_hvector (cast_int count) (cast_int blocklength) stride type
  if rc.1 ≠ 0 then TypeResult.error MPI_ERR_INTERN else
  update_yaksa_type E { newtype with handle := rc.2 } oldtype (wrap_aint (count * blocklength))

/-- `MPIR_Typerep_create_contig(count, oldtype, newtype)`. -/
def MPIR_Typerep_create_contig (E : TypeEnv) (count : Int) (oldtype : Int)
    (newtype : MPIR_Datatype) : TypeResult :=
  let type := E.MPII_Typerep_get_yaksa_type oldtype
  if ¬ (count ≤ INT_MAX) then TypeResult.abort else
  let rc := E.yaksa_type_create_contig count type
  if rc.1 ≠ 0 then TypeResult.error MPI_ERR_INTERN else
  update_yaksa_type E { newtype with handle := rc.2 } oldtype count

/-- `MPIR_Typerep_create_dup(oldtype, newtype)`. -/
def MPIR_Typerep_create_dup (E : TypeEnv) (oldtype : Int) (newtype : MPIR_Datatype) :
    TypeResult :=
  let type := E.MPII_Typerep_get_yaksa_type oldtype
  let rc := E.yaksa_type_create_dup type
  if rc.1 ≠ 0 then TypeResult.error MPI_ERR_INTERN else
  update_yaksa_type E { newtype with handle := rc.2 } oldtype 1

/-- `MPIR_Typerep_create_indexed_block(count, blocklength, array_of_displacements,
oldtype, newtype)`.  When `MPI_Aint` is wider than `int` the displacements are
copied into an allocated array of `int`, each under an assertion. -/
def MPIR_Typerep_create_indexed_block (E : TypeEnv) (count blocklength : Int)
    (array_of_displacements : Nat → Int) (oldtype : Int) (newtype : MPIR_Datatype) :
    TypeResult :=
  let type := E.MPII_Typerep_get_yaksa_type oldtype
  if ¬ (count ≤ INT_MAX) then TypeResult.abort else
  if ¬ (blocklength ≤ INT_MAX) then TypeResult.abort else
  if ¬ E.aint_is_int ∧ ¬ E.MPL_malloc (nbytes_int count) then TypeResult.abort else
  if ¬ E.aint_is_int ∧ ¬ all_le_INT_MAX count array_of_displacements then TypeResult.abort else
  let p_disp := if E.aint_is_int then array_of_displacements
    else to_int_array array_of_displacements
  let rc := E.yaksa_type_create_indexed_block (cast_int count) (cast_int blocklength) p_disp type
  if rc.1 ≠ 0 then TypeResult.error MPI_ERR_INTERN else
  update_yaksa_type E { newtype with handle := rc.2 } oldtype (wrap_aint (count * blocklength))

/-- `MPIR_Typerep_create_hindexed_block(count, blocklength, array_of_displacements,
oldtype, newtype)`. -/
def MPIR_Typerep_create_hindexed_block (E : TypeEnv) (count blocklength : Int)
    (array_of_displacements : Nat → Int) (oldtype : Int) (newtype : MPIR_Datatype) :
    TypeResult :=
  let type := E.MPII_Typerep_get_yaksa_type oldtype
  if ¬ (count ≤ INT_MAX) then TypeResult.abort else
  if ¬ (blocklength ≤ INT_MAX) then TypeResult.abort else
  let rc := E.yaksa_type_create_hindexed_block (cast_int count) (cast_int blocklength)
    array_of_displacements type
  if rc.1 ≠ 0 then TypeResult.error MPI_ERR_INTERN else
  update_yaksa_type E { newtype with handle := rc.2 } oldtype (wrap_aint (count * blocklength))

/-- `MPIR_Typerep_create_indexed(count, array_of_blocklengths,
array_of_displacements, oldtype, newtype)`. -/
def MPIR_Typerep_create_indexed (E : TypeEnv) (count : Int)
    (array_of_blocklengths array_of_displacements : Nat → Int) (oldtype : Int)
    (newtype : MPIR_Datatype) : TypeResult :=
  let type := E.MPII_Typerep_get_yaksa_type oldtype
  if ¬ (count ≤ INT_MAX) then TypeResult.abort else
  if ¬ E.aint_is_int ∧ ¬ E.MPL_malloc (nbytes_int count) then TypeResult.abort else
  if ¬ E.aint_is_int ∧ ¬ (all_le_INT_MAX count array_of_blocklengths
      && all_le_INT_MAX count array_of_displacements) then TypeResult.abort else
  let p_blkl := if E.aint_is_int then array_of_blocklengths
    else to_int_array array_of_blocklengths
  let p_disp := if E.aint_is_int then array_of_displacements
    else to_int_array array_of_displacements
  let rc := E.yaksa_type_create_indexed (cast_int count) p_blkl p_disp type
  if rc.1 ≠ 0 then TypeResult.error MPI_ERR_INTERN else
  let old_ct := sum_blocklengths count array_of_blocklengths
  update_yaksa_type E { newtype with handle := rc.2 } oldtype old_ct

/-- `MPIR_Typerep_create_hindexed(count, array_of_blocklengths,
array_of_displacements, oldtype, newtype)`. -/
def MPIR_Typerep_create_hindexed (E : TypeEnv) (count : Int)
    (array_of_blocklengths array_of_displacements : Nat → Int) (oldtype : Int)
    (newtype : MPIR_Datatype) : TypeResult :=
  let type := E.MPII_Typerep_get_yaksa_type oldtype
  if ¬ (count ≤ INT_MAX) then TypeResult.abort else
  if ¬ E.aint_is_int ∧ ¬ E.MPL_malloc (nbytes_int count) then TypeResult.abort else
  if ¬ E.aint_is_int ∧ ¬ all_le_INT_MAX count array_of_blocklengths then TypeResult.abort else
  let p_blkl := if E.aint_is_int then array_of_blocklengths
    else to_int_array array_of_blocklengths
  let rc := E.yaksa_type_create_hindexed (cast_int count) p_blkl array_of_displacements type
  if rc.1 ≠ 0 then TypeResult.error MPI_ERR_INTERN else
  let old_ct := sum_blocklengths count array_of_blocklengths
  update_yaksa_type E { newtype with handle := rc.2 } oldtype old_ct

/-- `MPIR_Typerep_create_resized(oldtype, lb, extent, newtype)`. -/
def MPIR_Typerep_create_resized (E : TypeEnv) (oldtype : Int) (lb extent : Int)
    (newtype : MPIR_Datatype) : TypeResult :=
  let type := E.MPII_Typerep_get_yaksa_type oldtype
  let rc := E.yaksa_type_create_resized type lb extent
  if rc.1 ≠ 0 then TypeResult.error MPI_ERR_INTERN else
  update_yaksa_type E { newtype with handle := rc.2 } oldtype 1

/-- The local variables `el_sz`, `el_type`, `found_el_type` of
`MPIR_Typerep_create_struct`. -/
structure ElState where
  el_sz : Int
  el_type : Int
  found_el_type : Int
deriving DecidableEq, Repr

/-- The value `tmp_el_sz` of member `i`: the basic size of a builtin member, the
`builtin_element_size` of a derived member. -/
def member_el_sz (E : TypeEnv) (array_of_types : Nat → Int) (i : Nat) : Int :=
  if E.HANDLE_IS_BUILTIN (array_of_types i) then
    E.MPIR_Datatype_get_basic_size (array_of_types i)
  else (E.MPIR_Datatype_get_ptr (array_of_types i)).builtin_element_size

/-- The value `tmp_el_type` of member `i`: a builtin member itself, the
`basic_type` of a derived member. -/
def member_el_type (E : TypeEnv) (array_of_types : Nat → Int) (i : Nat) : Int :=
  if E.HANDLE_IS_BUILTIN (array_of_types i) then array_of_types i
  else (E.MPIR_Datatype_get_ptr (array_of_types i)).basic_type

/-- One iteration of the loop of `MPIR_Typerep_create_struct` over the members. -/
def struct_el_step (E : TypeEnv) (array_of_blocklengths array_of_types : Nat → Int)
    (st : ElState) (i : Nat) : ElState :=
  if array_of_blocklengths i = 0 then st else
  let tmp_el_sz := member_el_sz E array_of_types i
  let tmp_el_type := member_el_type E array_of_types i
  if st.found_el_type = 0 then
    { el_sz := tmp_el_sz, el_type := tmp_el_type, found_el_type := 1 }
  else if st.el_sz ≠ tmp_el_sz then
    { st with el_sz := -1, el_type := E.MPI_DATATYPE_NULL }
  else if st.el_type ≠ tmp_el_type then
    { st with el_type := E.MPI_DATATYPE_NULL }
  else st

/-- The loop `for (int i = 0; i < count; i++)` of `MPIR_Typerep_create_struct`,
started from `el_sz = 0`, `el_type = MPI_DATATYPE_NULL`, `found_el_type = 0`. -/
def struct_el_loop (E : TypeEnv) (count : Int) (array_of_blocklengths array_of_types : Nat → Int) :
    ElState :=
  (List.range count.toNat).foldl (struct_el_step E array_of_blocklengths array_of_types)
    { el_sz := 0, el_type := E.MPI_DATATYPE_NULL, found_el_type := 0 }

/-- `MPIR_Typerep_create_struct(count, array_of_blocklengths,
array_of_displacements, array_of_types, newtype)`.  The array of yaksa types is
allocated without a check and then filled for every `i < count`, so the call
does not return when that allocation fails and `count` is positive. -/
def MPIR_Typerep_create_struct (E : TypeEnv) (count : Int)
    (array_of_blocklengths array_of_displacements array_of_types : Nat → Int)
    (newtype : MPIR_Datatype) : TypeResult :=
  if 0 < count ∧ ¬ E.MPL_malloc ((count * sizeof_yaksa_type_t) % 2 ^ 64) then TypeResult.abort else
  let array_of_yaksa_types : Nat → Int := fun i => E.MPII_Typerep_get_yaksa_type (array_of_types i)
  if ¬ (count ≤ INT_MAX) then TypeResult.abort else
  if ¬ E.aint_is_int ∧ ¬ E.MPL_malloc (nbytes_int count) then TypeResult.abort else
  if ¬ E.aint_is_int ∧ ¬ all_le_INT_MAX count array_of_blocklengths then TypeResult.abort else
  let p_blkl := if E.aint_is_int then array_of_blocklengths
    else to_int_array array_of_blocklengths
  let rc := E.yaksa_type_create_struct (cast_int count) p_blkl array_of_displacements
    array_of_yaksa_types
  if rc.1 ≠ 0 then TypeResult.error MPI_ERR_INTERN else
  match update_yaksa_type E { newtype with handle := rc.2 } E.MPI_DATATYPE_NULL 0 with
  | TypeResult.ok nt =>
    let st := struct_el_loop E count array_of_blocklengths array_of_types
    TypeResult.ok { nt with n_builtin_elements := -1, builtin_element_size := st.el_sz,
                            basic_type := st.el_type }
  | r => r

/-! ## Reference values used in the statements -/

/-- The send vertex the specification expects at position `k`: `sendcounts[k]` elements
of `sendtypes[k]` from `sendbuf + sdispls[k]` to `dsts[k]`, no predecessor. -/
def send_vertex (sendbuf : Int) (sendcounts sdispls sendtypes dsts : Nat → Int) (tag : Int)
    (k : Nat) : Vertex :=
  { kind := VtxKind.isend, buf := sendbuf + sdispls k, count := sendcounts k,
    datatype := sendtypes k, peer := dsts k, tag := tag, in_vtcs := [] }

/-- The receive vertex the specification expects for incoming edge `l`: `recvcounts[l]`
elements of `recvtypes[l]` into `recvbuf + rdispls[l]` from `srcs[l]`, no
predecessor. -/
def recv_vertex (recvbuf : Int) (recvcounts rdispls recvtypes srcs : Nat → Int) (tag : Int)
    (l : Nat) : Vertex :=
  { kind := VtxKind.irecv, buf := recvbuf + rdispls l, count := recvcounts l,
    datatype := recvtypes l, peer := srcs l, tag := tag, in_vtcs := [] }

/-- The builder call that appends a given vertex. -/
def vtx_call (v : Vertex) : Call :=
  match v.kind with
  | VtxKind.isend => Call.MPIR_TSP_sched_isend v
  | VtxKind.irecv => Call.MPIR_TSP_sched_irecv v

/-- Whether a call is a call of the builder. -/
def Call.is_append : Call → Bool
  | Call.MPIR_TSP_sched_isend _ => true
  | Call.MPIR_TSP_sched_irecv _ => true
  | _ => false

/-- The vertex sequence the specification expects from one run of the scheduling routine
on communicator state `comm`: the sends in ascending `k < outdegree`, then the
receives in ascending `l < indegree`, with the degrees, peers and tag the
services hand out. -/
def linear_vertices {κ : Type} (S : Services κ)
    (sendbuf : Int) (sendcounts sdispls sendtypes : Nat → Int)
    (recvbuf : Int) (recvcounts rdispls recvtypes : Nat → Int) (comm : κ) : List Vertex :=
  let cnt := S.MPIR_Topo_canon_nhb_count comm
  let nhb := S.MPIR_Topo_canon_nhb comm cnt.2.1 cnt.2.2.1
  let tag := (S.MPIR_Sched_next_tag comm).2.1
  (List.range cnt.2.2.1.toNat).map (send_vertex sendbuf sendcounts sdispls sendtypes nhb.2.2 tag)
    ++ (List.range cnt.2.1.toNat).map
      (recv_vertex recvbuf recvcounts rdispls recvtypes nhb.2.1 tag)

/-- The calls the scheduling routine makes before the first builder call when no
service fails. -/
def linear_prologue {κ : Type} (S : Services κ) (comm : κ) : List Call :=
  let cnt := S.MPIR_Topo_canon_nhb_count comm
  [Call.MPIR_Topo_canon_nhb_count, Call.MPIR_CHKLMEM_MALLOC (nbytes_int cnt.2.1),
   Call.MPIR_CHKLMEM_MALLOC (nbytes_int cnt.2.2.1), Call.MPIR_Topo_canon_nhb cnt.2.1 cnt.2.2.1,
   Call.MPIR_Sched_next_tag]

/-- A call of one of the nine constructors that are not the struct constructor,
with the arguments that come before `oldtype`. -/
inductive Ctor where
  | contig (count : Int)
  | vector (count blocklength stride : Int)
  | hvector (count blocklength stride : Int)
  | indexed_block (count blocklength : Int) (array_of_displacements : Nat → Int)
  | hindexed_block (count blocklength : Int) (array_of_displacements : Nat → Int)
  | indexed (count : Int) (array_of_blocklengths array_of_displacements : Nat → Int)
  | hindexed (count : Int) (array_of_blocklengths array_of_displacements : Nat → Int)
  | dup
  | resized (lb extent : Int)

/-- The constructor of the source a `Ctor` stands for, applied. -/
def Ctor.run (E : TypeEnv) (c : Ctor) (oldtype : Int) (newtype : MPIR_Datatype) : TypeResult :=
  match c with
  | Ctor.contig count => MPIR_Typerep_create_contig E count oldtype newtype
  | Ctor.vector count blocklength stride =>
    MPIR_Typerep_create_vector E count blocklength stride oldtype newtype
  | Ctor.hvector count blocklength stride =>
    MPIR_Typerep_create_hvector E count blocklength stride oldtype newtype
  | Ctor.indexed_block count blocklength disps =>
    MPIR_Typerep_create_indexed_block E count blocklength disps oldtype newtype
  | Ctor.hindexed_block count blocklength disps =>
    MPIR_Typerep_create_hindexed_block E count blocklength disps oldtype newtype
  | Ctor.indexed count blkls disps => MPIR_Typerep_create_indexed E count blkls disps oldtype newtype
  | Ctor.hindexed count blkls disps =>
    MPIR_Typerep_create_hindexed E count blkls disps oldtype newtype
  | Ctor.dup => MPIR_Typerep_create_dup E oldtype newtype
  | Ctor.resized lb extent => MPIR_Typerep_create_resized E oldtype lb extent newtype

/-- The count of `oldtype` taken as a unit, in the words of the specification: `count`
for contig; `count * blocklength` for vector, hvector, indexed_block and
hindexed_block; the sum of `array_of_blocklengths` over the `count` entries for
indexed and hindexed; 1 for dup and resized. -/
def Ctor.unit_count : Ctor → Int
  | Ctor.contig count => count
  | Ctor.vector count blocklength _ => count * blocklength
  | Ctor.hvector count blocklength _ => count * blocklength
  | Ctor.indexed_block count blocklength _ => count * blocklength
  | Ctor.hindexed_block count blocklength _ => count * blocklength
  | Ctor.indexed count blkls _ => ((List.range count.toNat).map blkls).sum
  | Ctor.hindexed count blkls _ => ((List.range count.toNat).map blkls).sum
  | Ctor.dup => 1
  | Ctor.resized _ _ => 1

/-- The count of `oldtype` a constructor hands to `update_yaksa_type`, as the
source computes it in `MPI_Aint`. -/
def Ctor.unit_count_aint : Ctor → Int
  | Ctor.contig count => count
  | Ctor.vector count blocklength _ => wrap_aint (count * blocklength)
  | Ctor.hvector count blocklength _ => wrap_aint (count * blocklength)
  | Ctor.indexed_block count blocklength _ => wrap_aint (count * blocklength)
  | Ctor.hindexed_block count blocklength _ => wrap_aint (count * blocklength)
  | Ctor.indexed count blkls _ => sum_blocklengths count blkls
  | Ctor.hindexed count blkls _ => sum_blocklengths count blkls
  | Ctor.dup => 1
  | Ctor.resized _ _ => 1

/-- The metadata of `nt` is what yaksa reports for the handle of `nt`, read as
`MPI_Aint`: the size and the block count are converted from `uintptr_t`, the
upper bounds are sums in `MPI_Aint`, the block count is halved after the
conversion. -/
def yaksa_metadata_in_aint (E : TypeEnv) (nt : MPIR_Datatype) : Prop :=
  nt.size = wrap_aint ((E.yaksa_type_get_size nt.handle).2 : Int) ∧
  nt.lb = (E.yaksa_type_get_extent nt.handle).2.1 ∧
  nt.extent = (E.yaksa_type_get_extent nt.handle).2.2 ∧
  nt.true_lb = (E.yaksa_type_get_true_extent nt.handle).2.1 ∧
  nt.ub = wrap_aint (nt.lb + nt.extent) ∧
  nt.true_ub = wrap_aint (nt.true_lb + (E.yaksa_type_get_true_extent nt.handle).2.2) ∧
  (nt.is_contig = 1 ↔ (E.yaksa_iov_len 2 nt.handle).2 = 1) ∧
  ((E.yaksa_iov_len 2 nt.handle).2 = 1 → nt.num_contig_blocks = 1) ∧
  ((E.yaksa_iov_len 2 nt.handle).2 ≠ 1 →
    nt.is_contig = 0 ∧
    nt.num_contig_blocks = Int.tdiv (wrap_aint ((E.yaksa_iov_len 2 nt.handle).2 : Int)) 2)

/-- What yaksa reports for the handle of `nt` fits `MPI_Aint`: the size and the
block count are below `2^63` and the two upper bounds are in range. -/
def yaksa_reports_in_range (E : TypeEnv) (nt : MPIR_Datatype) : Prop :=
  ((E.yaksa_type_get_size nt.handle).2 : Int) < 9223372036854775808 ∧
  ((E.yaksa_iov_len 2 nt.handle).2 : Int) < 9223372036854775808 ∧
  in_aint_range ((E.yaksa_type_get_extent nt.handle).2.1 +
    (E.yaksa_type_get_extent nt.handle).2.2) ∧
  in_aint_range ((E.yaksa_type_get_true_extent nt.handle).2.1 +
    (E.yaksa_type_get_true_extent nt.handle).2.2)

/-- The element metadata of `nt` as `update_yaksa_type` computes it for `c`
units of `oldtype`: the product with the element count of a derived `oldtype`
is taken in `MPI_Aint`. -/
def elements_in_aint (E : TypeEnv) (oldtype c : Int) (nt : MPIR_Datatype) : Prop :=
  if E.HANDLE_IS_BUILTIN oldtype then
    nt.n_builtin_elements = c ∧
    nt.builtin_element_size = E.MPIR_Datatype_get_basic_size oldtype ∧
    nt.basic_type = oldtype
  else
    nt.n_builtin_elements = wrap_aint (c * (E.MPIR_Datatype_get_ptr oldtype).n_builtin_elements) ∧
    nt.builtin_element_size = (E.MPIR_Datatype_get_ptr oldtype).builtin_element_size ∧
    nt.basic_type = (E.MPIR_Datatype_get_ptr oldtype).basic_type

/-- The metadata of `nt` agrees with what yaksa reports for the handle of `nt`,
in the words of the specification. -/
def agrees_with_yaksa (E : TypeEnv) (nt : MPIR_Datatype) : Prop :=
  nt.size = ((E.yaksa_type_get_size nt.handle).2 : Int) ∧
  nt.lb = (E.yaksa_type_get_extent nt.handle).2.1 ∧
  nt.extent = (E.yaksa_type_get_extent nt.handle).2.2 ∧
  nt.true_lb = (E.yaksa_type_get_true_extent nt.handle).2.1 ∧
  nt.ub = nt.lb + nt.extent ∧
  nt.true_ub = nt.true_lb + (E.yaksa_type_get_true_extent nt.handle).2.2 ∧
  (nt.is_contig = 1 ↔ (E.yaksa_iov_len 2 nt.handle).2 = 1) ∧
  ((E.yaksa_iov_len 2 nt.handle).2 = 1 → nt.num_contig_blocks = 1) ∧
  ((E.yaksa_iov_len 2 nt.handle).2 ≠ 1 →
    nt.is_contig = 0 ∧ nt.num_contig_blocks = (((E.yaksa_iov_len 2 nt.handle).2 / 2 : Nat) : Int))

/-- The element metadata of `nt` is derived from `oldtype` for `c` units, in the
words of the claims. -/
def elements_from_oldtype (E : TypeEnv) (oldtype c : Int) (nt : MPIR_Datatype) : Prop :=
  if E.HANDLE_IS_BUILTIN oldtype then
    nt.n_builtin_elements = c ∧
    nt.builtin_element_size = E.MPIR_Datatype_get_basic_size oldtype ∧
    nt.basic_type = oldtype
  else
    nt.n_builtin_elements = c * (E.MPIR_Datatype_get_ptr oldtype).n_builtin_elements ∧
    nt.builtin_element_size = (E.MPIR_Datatype_get_ptr oldtype).builtin_element_size ∧
    nt.basic_type = (E.MPIR_Datatype_get_ptr oldtype).basic_type

/-- The members of a struct that count, in order: element size and basic type of
every member `i < count` with non-zero blocklength. -/
def counted_members (E : TypeEnv) (count : Int) (array_of_blocklengths array_of_types : Nat → Int) :
    List (Int × Int) :=
  (List.range count.toNat).filterMap (fun i =>
    if array_of_blocklengths i = 0 then none
    else some (member_el_sz E array_of_types i, member_el_type E array_of_types i))

/-- The element summary `(builtin_element_size, basic_type)` of a struct, in the
words of the claims: `(0, MPI_DATATYPE_NULL)` without counted member;
`(-1, MPI_DATATYPE_NULL)` when two counted members differ in element size;
otherwise the common size, with the common basic type when there is one and
`MPI_DATATYPE_NULL` when there is none. -/
def struct_summary (null : Int) : List (Int × Int) → Int × Int
  | [] => (0, null)
  | m :: rest =>
    if rest.all (fun x => decide (x.1 = m.1)) then
      (m.1, if rest.all (fun x => decide (x.2 = m.2)) then m.2 else null)
    else (-1, null)

/-- A member of a struct as the caller lists it: blocklength, displacement and
type handle. -/
structure StructMember where
  blocklength : Int
  displacement : Int
  type : Int
deriving DecidableEq, Repr

/-- The array `array_of_blocklengths` laid out from a list of members (entries
past the end of the list read as 0). -/
def blocklengths_of (ms : List StructMember) : Nat → Int :=
  fun i => (ms[i]?.map StructMember.blocklength).getD 0

/-- The array `array_of_displacements` laid out from a list of members. -/
def displacements_of (ms : List StructMember) : Nat → Int :=
  fun i => (ms[i]?.map StructMember.displacement).getD 0

/-- The array `array_of_types` laid out from a list of members. -/
def types_of (ms : List StructMember) : Nat → Int :=
  fun i => (ms[i]?.map StructMember.type).getD 0

/-- Element size and basic type of a member that counts, nothing for a member of
blocklength 0, in the words of the specification. -/
def counted_member (E : TypeEnv) (m : StructMember) : Option (Int × Int) :=
  if m.blocklength = 0 then none
  else some (member_el_sz E (fun _ => m.type) 0, member_el_type E (fun _ => m.type) 0)

/-! ## Concrete inputs -/

/-- A communicator with two incoming and three outgoing edges; its state is the
next tag of the pool.  `stage` selects the service that fails with code `15`:
`1` the neighbor count, `2` the neighbor list, `3` the tag draw, `4` the start
of the schedule, anything else none. -/
def demo_services (stage : Nat) : Services Nat where
  MPIR_Topo_canon_nhb_count := fun _ => (if stage = 1 then 15 else MPI_SUCCESS, 2, 3, 0)
  MPIR_Topo_canon_nhb := fun _ _ _ =>
    (if stage = 2 then 15 else MPI_SUCCESS, fun l => 10 + (l : Int), fun k => 20 + (k : Int))
  MPIR_Sched_next_tag := fun c => (if stage = 3 then 15 else MPI_SUCCESS, (c : Int), c + 1)
  MPIR_CHKLMEM_MALLOC := fun _ => MPI_SUCCESS
  MPL_malloc_sched := true
  MPIR_TSP_sched_start := fun _ _ => (if stage = 4 then 15 else MPI_SUCCESS, some 1)

/-- The world before a run of the scheduling routine on a fresh schedule, the tag
pool standing at `7`. -/
def demo_world : World Nat :=
  { comm := 7, sched := MPIR_TSP_sched_create, trace := [] }

/-- The entries of an argument array: `base + 100 * i` at index `i`. -/
def demo_array (base : Int) : Nat → Int := fun i => base + 100 * (i : Int)

/-- The handle of `MPI_INT` in MPICH. -/
def MPI_INT : Int := 0x4c000405

/-- The handle of `MPI_FLOAT` in MPICH. -/
def MPI_FLOAT : Int := 0x4c00040a

/-- The handle of `MPI_DOUBLE` in MPICH. -/
def MPI_DOUBLE : Int := 0x4c00080b

/-- The handle of a derived datatype (handle kind "direct"). -/
def demo_derived : Int := 0x8c000000

/-- An environment with the handle encoding of MPICH (`MPI_DATATYPE_NULL` is
`0x0c000000`, the handle kind sits in the two top bits, the basic size in bits 8
to 15), one derived datatype of three `MPI_DOUBLE` elements, an `MPI_Aint` wider
than `int`, an allocator that never fails, and a yaksa that creates every type
with handle 1 and reports `blocks` contiguous blocks for two elements, `size`
bytes, and the extent `extent` from lower bound 0. -/
def demo_env (blocks size : Nat) (extent : Int) : TypeEnv where
  MPI_DATATYPE_NULL := 0x0c000000
  HANDLE_IS_BUILTIN := fun h => decide ((h / 2 ^ 30) % 4 = 1)
  MPIR_Datatype_get_basic_size := fun h => (h / 256) % 256
  MPIR_Datatype_get_ptr := fun _ =>
    { handle := 2, is_contig := 1, num_contig_blocks := 1, size := 24, lb := 0, extent := 24,
      ub := 24, true_lb := 0, true_ub := 24, n_builtin_elements := 3,
      builtin_element_size := 8, basic_type := MPI_DOUBLE }
  MPII_Typerep_get_yaksa_type := fun h => h
  aint_is_int := false
  MPL_malloc := fun _ => true
  yaksa_iov_len := fun _ _ => (0, blocks)
  yaksa_type_get_size := fun _ => (0, size)
  yaksa_type_get_extent := fun _ => (0, 0, extent)
  yaksa_type_get_true_extent := fun _ => (0, 0, extent)
  yaksa_type_create_vector := fun _ _ _ _ => (0, 1)
  yaksa_type_create_hvector := fun _ _ _ _ => (0, 1)
  yaksa_type_create_contig := fun _ _ => (0, 1)
  yaksa_type_create_dup := fun _ => (0, 1)
  yaksa_type_create_indexed_block := fun _ _ _ _ => (0, 1)
  yaksa_type_create_hindexed_block := fun _ _ _ _ => (0, 1)
  yaksa_type_create_indexed := fun _ _ _ _ => (0, 1)
  yaksa_type_create_hindexed := fun _ _ _ _ => (0, 1)
  yaksa_type_create_resized := fun _ _ _ => (0, 1)
  yaksa_type_create_struct := fun _ _ _ _ => (0, 1)

/-- A datatype object as the allocator of handles may hand it out: every field
holds what an earlier use left there. -/
def stale_newtype : MPIR_Datatype :=
  { handle := 0, is_contig := 555, num_contig_blocks := 555, size := 555, lb := 555,
    extent := 555, ub := 555, true_lb := 555, true_ub := 555, n_builtin_elements := 777,
    builtin_element_size := 888, basic_type := 999 }

/-- The array with entries `a0, a1, a2` at indices 0, 1, 2 and `a2` afterwards. -/
def demo_triple (a0 a1 a2 : Int) : Nat → Int := fun i =>
  match i with
  | 0 => a0
  | 1 => a1
  | _ => a2

/-- The memory of rank `q` in the ring scenario: its own rank number at address
1000, zero elsewhere. -/
def ring_mems : Nat → Int → Int := fun q a => if a = 1000 then (q : Int) else 0

/-- The derived datatype `contig(INT_MAX)` of `MPI_INT`: 2147483647 elements of
4 bytes. -/
def contig_int_max_of_int : MPIR_Datatype :=
  { handle := 3, is_contig := 1, num_contig_blocks := 1, size := 8589934588, lb := 0,
    extent := 8589934588, ub := 8589934588, true_lb := 0, true_ub := 8589934588,
    n_builtin_elements := 2147483647, builtin_element_size := 4, basic_type := MPI_INT }

/-- The environment of `demo_env` in which the derived datatype is
`contig(INT_MAX)` of `MPI_INT` and yaksa reports, for the `contig(INT_MAX)`
built over it, one contiguous block and the size
`2147483647 * 2147483647 * 4 = 18446744056529682436` as `uintptr_t` (the extent,
an `intptr_t`, is that number reduced by `2^64`). -/
def nested_contig_env : TypeEnv :=
  { demo_env 1 18446744056529682436 (-17179869180) with
    MPIR_Datatype_get_ptr := fun _ => contig_int_max_of_int }

/-! ## Part 1: theorems -/

theorem send_loop_eq {κ : Type} (sendbuf : Int) (sendcounts sdispls sendtypes dsts : Nat → Int)
    (tag outdegree : Int) (w : World κ) :
    send_loop sendbuf sendcounts sdispls sendtypes dsts tag outdegree w =
      World.mk w.comm
        (MPIR_TSP_sched_t.mk (w.sched.vtcs ++ (List.range outdegree.toNat).map
          (send_vertex sendbuf sendcounts sdispls sendtypes dsts tag)))
        (w.trace ++ (List.range outdegree.toNat).map
          (fun k => vtx_call (send_vertex sendbuf sendcounts sdispls sendtypes dsts tag k))) := by
  unfold send_loop
  generalize List.range outdegree.toNat = ks
  induction ks generalizing w with
  | nil => simp
  | cons k ks ih =>
    rw [List.foldl_cons, ih]
    simp [MPIR_TSP_sched_isend, sched_append, send_vertex, vtx_call]

theorem recv_loop_eq {κ : Type} (recvbuf : Int) (recvcounts rdispls recvtypes srcs : Nat → Int)
    (tag indegree : Int) (w : World κ) :
    recv_loop recvbuf recvcounts rdispls recvtypes srcs tag indegree w =
      World.mk w.comm
        (MPIR_TSP_sched_t.mk (w.sched.vtcs ++ (List.range indegree.toNat).map
          (recv_vertex recvbuf recvcounts rdispls recvtypes srcs tag)))
        (w.trace ++ (List.range indegree.toNat).map
          (fun l => vtx_call (recv_vertex recvbuf recvcounts rdispls recvtypes srcs tag l))) := by
  unfold recv_loop
  generalize List.range indegree.toNat = ls
  induction ls generalizing w with
  | nil => simp
  | cons l ls ih =>
    rw [List.foldl_cons, ih]
    simp [MPIR_TSP_sched_irecv, sched_append, recv_vertex, vtx_call]

/-- A successful run of the scheduling routine leaves the communicator after one
tag draw, the schedule extended by `linear_vertices`, and the log extended by
the prologue followed by one builder call per vertex. -/
theorem sched_linear_success {κ : Type} (S : Services κ)
    (sendbuf : Int) (sendcounts sdispls sendtypes : Nat → Int)
    (recvbuf : Int) (recvcounts rdispls recvtypes : Nat → Int) (w : World κ)
    (h : (MPIR_TSP_Ineighbor_alltoallw_sched_allcomm_linear S sendbuf sendcounts sdispls
      sendtypes recvbuf recvcounts rdispls recvtypes w).1 = MPI_SUCCESS) :
    (MPIR_TSP_Ineighbor_alltoallw_sched_allcomm_linear S sendbuf sendcounts sdispls
      sendtypes recvbuf recvcounts rdispls recvtypes w).2 =
      World.mk (S.MPIR_Sched_next_tag w.comm).2.2
        (MPIR_TSP_sched_t.mk (w.sched.vtcs ++ linear_vertices S sendbuf sendcounts sdispls
          sendtypes recvbuf recvcounts rdispls recvtypes w.comm))
        (w.trace ++ (linear_prologue S w.comm ++
          (linear_vertices S sendbuf sendcounts sdispls sendtypes recvbuf recvcounts rdispls
            recvtypes w.comm).map vtx_call)) := by
  unfold MPIR_TSP_Ineighbor_alltoallw_sched_allcomm_linear at h ⊢
  simp only [World.log] at h ⊢
  split_ifs at h ⊢ with h1 h2 h3 h4 h5
  · exact absurd h h1
  · exact absurd h h2
  · exact absurd h h3
  · exact absurd h h4
  · exact absurd h h5
  · rw [recv_loop_eq, send_loop_eq]
    simp [linear_vertices, linear_prologue, List.map_append, List.map_map, Function.comp_def]

theorem vtx_call_is_append (v : Vertex) : (vtx_call v).is_append = true := by
  unfold vtx_call
  cases v.kind <;> rfl

theorem vtx_call_ne_next_tag (v : Vertex) : vtx_call v ≠ Call.MPIR_Sched_next_tag := by
  unfold vtx_call
  cases v.kind <;> simp

theorem vtx_call_ne_sched_start (v : Vertex) : vtx_call v ≠ Call.MPIR_TSP_sched_start := by
  unfold vtx_call
  cases v.kind <;> simp

/-- A run of the scheduling routine that returns an error leaves the schedule as
it found it, and none of the calls it made is a builder call or a start. -/
theorem sched_linear_failure {κ : Type} (S : Services κ)
    (sendbuf : Int) (sendcounts sdispls sendtypes : Nat → Int)
    (recvbuf : Int) (recvcounts rdispls recvtypes : Nat → Int) (w : World κ)
    (h : (MPIR_TSP_Ineighbor_alltoallw_sched_allcomm_linear S sendbuf sendcounts sdispls
      sendtypes recvbuf recvcounts rdispls recvtypes w).1 ≠ MPI_SUCCESS) :
    (MPIR_TSP_Ineighbor_alltoallw_sched_allcomm_linear S sendbuf sendcounts sdispls
      sendtypes recvbuf recvcounts rdispls recvtypes w).2.sched = w.sched ∧
    ∃ suf : List Call,
      (MPIR_TSP_Ineighbor_alltoallw_sched_allcomm_linear S sendbuf sendcounts sdispls
        sendtypes recvbuf recvcounts rdispls recvtypes w).2.trace = w.trace ++ suf ∧
      ∀ c ∈ suf, c.is_append = false ∧ c ≠ Call.MPIR_TSP_sched_start := by
  unfold MPIR_TSP_Ineighbor_alltoallw_sched_allcomm_linear at h ⊢
  simp only [World.log] at h ⊢
  split_ifs at h ⊢ with h1 h2 h3 h4 h5
  all_goals first
    | exact absurd (not_not.mp h5) h
    | (refine ⟨rfl, ?_⟩
       simp only [List.append_assoc]
       refine ⟨_, rfl, ?_⟩
       simp [Call.is_append])

/-- The return value of the scheduling routine is the code of the first service
that fails, in call order, and the code of the tag draw when none fails. -/
theorem sched_linear_errno {κ : Type} (S : Services κ)
    (sendbuf : Int) (sendcounts sdispls sendtypes : Nat → Int)
    (recvbuf : Int) (recvcounts rdispls recvtypes : Nat → Int) (w : World κ) :
    (MPIR_TSP_Ineighbor_alltoallw_sched_allcomm_linear S sendbuf sendcounts sdispls
      sendtypes recvbuf recvcounts rdispls recvtypes w).1 =
    (if (S.MPIR_Topo_canon_nhb_count w.comm).1 ≠ MPI_SUCCESS then (S.MPIR_Topo_canon_nhb_count w.comm).1
     else if S.MPIR_CHKLMEM_MALLOC (nbytes_int (S.MPIR_Topo_canon_nhb_count w.comm).2.1) ≠ MPI_SUCCESS
       then S.MPIR_CHKLMEM_MALLOC (nbytes_int (S.MPIR_Topo_canon_nhb_count w.comm).2.1)
     else if S.MPIR_CHKLMEM_MALLOC (nbytes_int (S.MPIR_Topo_canon_nhb_count w.comm).2.2.1) ≠ MPI_SUCCESS
       then S.MPIR_CHKLMEM_MALLOC (nbytes_int (S.MPIR_Topo_canon_nhb_count w.comm).2.2.1)
     else if (S.MPIR_Topo_canon_nhb w.comm (S.MPIR_Topo_canon_nhb_count w.comm).2.1
         (S.MPIR_Topo_canon_nhb_count w.comm).2.2.1).1 ≠ MPI_SUCCESS
       then (S.MPIR_Topo_canon_nhb w.comm (S.MPIR_Topo_canon_nhb_count w.comm).2.1
         (S.MPIR_Topo_canon_nhb_count w.comm).2.2.1).1
     else (S.MPIR_Sched_next_tag w.comm).1) := by
  unfold MPIR_TSP_Ineighbor_alltoallw_sched_allcomm_linear
  simp only [World.log]
  split_ifs <;> rfl

/-- C1: on an empty schedule a successful call of the scheduling routine, for
degrees `indegree, outdegree ≥ 0` reported by the topology service, appends
exactly `outdegree` send vertices and `indegree` receive vertices and nothing
else (`indegree + outdegree` vertices, none when both are 0), each declared
with an empty predecessor set. -/
theorem C1_linear_one_vertex_per_edge {κ : Type} (S : Services κ)
    (sendbuf : Int) (sendcounts sdispls sendtypes : Nat → Int)
    (recvbuf : Int) (recvcounts rdispls recvtypes : Nat → Int)
    (comm : κ) (trace : List Call)
    (h_in : 0 ≤ (S.MPIR_Topo_canon_nhb_count comm).2.1)
    (h_out : 0 ≤ (S.MPIR_Topo_canon_nhb_count comm).2.2.1)
    (h_ok : (MPIR_TSP_Ineighbor_alltoallw_sched_allcomm_linear S sendbuf sendcounts sdispls
      sendtypes recvbuf recvcounts rdispls recvtypes
      (World.mk comm MPIR_TSP_sched_create trace)).1 = MPI_SUCCESS) :
    ((((MPIR_TSP_Ineighbor_alltoallw_sched_allcomm_linear S sendbuf sendcounts sdispls
        sendtypes recvbuf recvcounts rdispls recvtypes
        (World.mk comm MPIR_TSP_sched_create trace)).2.sched.vtcs.countP
          (fun v => decide (v.kind = VtxKind.isend)) : Nat) : Int)
        = (S.MPIR_Topo_canon_nhb_count comm).2.2.1) ∧
    ((((MPIR_TSP_Ineighbor_alltoallw_sched_allcomm_linear S sendbuf sendcounts sdispls
        sendtypes recvbuf recvcounts rdispls recvtypes
        (World.mk comm MPIR_TSP_sched_create trace)).2.sched.vtcs.countP
          (fun v => decide (v.kind = VtxKind.irecv)) : Nat) : Int)
        = (S.MPIR_Topo_canon_nhb_count comm).2.1) ∧
    ((((MPIR_TSP_Ineighbor_alltoallw_sched_allcomm_linear S sendbuf sendcounts sdispls
        sendtypes recvbuf recvcounts rdispls recvtypes
        (World.mk comm MPIR_TSP_sched_create trace)).2.sched.vtcs.length : Nat) : Int)
        = (S.MPIR_Topo_canon_nhb_count comm).2.1 + (S.MPIR_Topo_canon_nhb_count comm).2.2.1) ∧
    ((S.MPIR_Topo_canon_nhb_count comm).2.1 = 0 → (S.MPIR_Topo_canon_nhb_count comm).2.2.1 = 0 →
      (MPIR_TSP_Ineighbor_alltoallw_sched_allcomm_linear S sendbuf sendcounts sdispls
        sendtypes recvbuf recvcounts rdispls recvtypes
        (World.mk comm MPIR_TSP_sched_create trace)).2.sched.vtcs = []) ∧
    (∀ v ∈ (MPIR_TSP_Ineighbor_alltoallw_sched_allcomm_linear S sendbuf sendcounts sdispls
        sendtypes recvbuf recvcounts rdispls recvtypes
        (World.mk comm MPIR_TSP_sched_create trace)).2.sched.vtcs, v.in_vtcs = []) := by
  rw [sched_linear_success S _ _ _ _ _ _ _ _ _ h_ok]
  have hs : ∀ (l : List Nat) (f : Nat → Int) (g : Nat → Int) (t : Int),
      (l.map (send_vertex sendbuf sendcounts sdispls sendtypes g t)).countP
        (fun v => decide (v.kind = VtxKind.isend)) = l.length ∧
      (l.map (send_vertex sendbuf sendcounts sdispls sendtypes g t)).countP
        (fun v => decide (v.kind = VtxKind.irecv)) = 0 ∧
      (l.map (recv_vertex recvbuf recvcounts rdispls recvtypes f t)).countP
        (fun v => decide (v.kind = VtxKind.irecv)) = l.length ∧
      (l.map (recv_vertex recvbuf recvcounts rdispls recvtypes f t)).countP
        (fun v => decide (v.kind = VtxKind.isend)) = 0 := by
    intro l f g t
    induction l with
    | nil => simp
    | cons a l ih =>
      obtain ⟨i1, i2, i3, i4⟩ := ih
      simp [List.countP_cons, send_vertex, recv_vertex] at i1 i2 i3 i4 ⊢
  simp only [MPIR_TSP_sched_create, List.nil_append, linear_vertices, List.countP_append]
  refine ⟨?_, ?_, ?_, ?_, ?_⟩
  · rw [(hs _ (fun _ => 0) _ _).1, (hs _ _ (fun _ => 0) _).2.2.2]
    simp [Int.toNat_of_nonneg h_out]
  · rw [(hs _ (fun _ => 0) _ _).2.1, (hs _ _ (fun _ => 0) _).2.2.1]
    simp [Int.toNat_of_nonneg h_in]
  · simp [Int.toNat_of_nonneg h_out, Int.toNat_of_nonneg h_in]
    ring
  · intro e1 e2
    simp [e1, e2]
  · intro v hv
    rcases List.mem_append.mp hv with h | h
    · obtain ⟨k, _, rfl⟩ := List.mem_map.mp h
      rfl
    · obtain ⟨k, _, rfl⟩ := List.mem_map.mp h
      rfl

/-- Witness of C1 on a communicator with two incoming and three outgoing edges. -/
theorem C1_linear_one_vertex_per_edge_witness :
    (0 : Int) ≤ ((demo_services 0).MPIR_Topo_canon_nhb_count 7).2.1 ∧
    (((MPIR_TSP_Ineighbor_alltoallw_sched_allcomm_linear (demo_services 0) 1000
        (demo_array 1) (demo_array 8) (demo_array 5) 2000
        (demo_array 2) (demo_array 16) (demo_array 6)
        (World.mk 7 MPIR_TSP_sched_create [])).2.sched.vtcs.length : Nat) : Int) = 2 + 3 :=
  ⟨by decide,
   (C1_linear_one_vertex_per_edge (demo_services 0) 1000
      (demo_array 1) (demo_array 8) (demo_array 5) 2000
      (demo_array 2) (demo_array 16) (demo_array 6) 7 []
      (by decide) (by decide) (by decide)).2.2.1⟩

/-- C2: in a successful call of the scheduling routine the tag is drawn from the
pool exactly once (the communicator is left in the state after one
`MPIR_Sched_next_tag`, and the calls made contain one tag draw), the draw comes
before every builder call, and every appended send and receive vertex carries
the tag that draw returned. -/
theorem C2_linear_single_shared_tag {κ : Type} (S : Services κ)
    (sendbuf : Int) (sendcounts sdispls sendtypes : Nat → Int)
    (recvbuf : Int) (recvcounts rdispls recvtypes : Nat → Int) (w : World κ)
    (h_ok : (MPIR_TSP_Ineighbor_alltoallw_sched_allcomm_linear S sendbuf sendcounts sdispls
      sendtypes recvbuf recvcounts rdispls recvtypes w).1 = MPI_SUCCESS) :
    (MPIR_TSP_Ineighbor_alltoallw_sched_allcomm_linear S sendbuf sendcounts sdispls
      sendtypes recvbuf recvcounts rdispls recvtypes w).2.comm = (S.MPIR_Sched_next_tag w.comm).2.2 ∧
    ∃ (pre : List Call) (app : List Vertex),
      (MPIR_TSP_Ineighbor_alltoallw_sched_allcomm_linear S sendbuf sendcounts sdispls
        sendtypes recvbuf recvcounts rdispls recvtypes w).2.trace =
          w.trace ++ (pre ++ Call.MPIR_Sched_next_tag :: app.map vtx_call) ∧
      (MPIR_TSP_Ineighbor_alltoallw_sched_allcomm_linear S sendbuf sendcounts sdispls
        sendtypes recvbuf recvcounts rdispls recvtypes w).2.sched.vtcs = w.sched.vtcs ++ app ∧
      (pre ++ Call.MPIR_Sched_next_tag :: app.map vtx_call).count Call.MPIR_Sched_next_tag = 1 ∧
      (∀ c ∈ pre, c.is_append = false) ∧
      (∀ c ∈ app.map vtx_call, c.is_append = true) ∧
      (∀ v ∈ app, v.tag = (S.MPIR_Sched_next_tag w.comm).2.1) := by
  rw [sched_linear_success S _ _ _ _ _ _ _ _ _ h_ok]
  refine ⟨rfl, [Call.MPIR_Topo_canon_nhb_count,
      Call.MPIR_CHKLMEM_MALLOC (nbytes_int (S.MPIR_Topo_canon_nhb_count w.comm).2.1),
      Call.MPIR_CHKLMEM_MALLOC (nbytes_int (S.MPIR_Topo_canon_nhb_count w.comm).2.2.1),
      Call.MPIR_Topo_canon_nhb (S.MPIR_Topo_canon_nhb_count w.comm).2.1
        (S.MPIR_Topo_canon_nhb_count w.comm).2.2.1],
    linear_vertices S sendbuf sendcounts sdispls sendtypes recvbuf recvcounts rdispls
      recvtypes w.comm, ?_, rfl, ?_, ?_, ?_, ?_⟩
  · simp [linear_prologue]
  · have h0 : ∀ l : List Vertex, (l.map vtx_call).count Call.MPIR_Sched_next_tag = 0 := by
      intro l
      rw [List.count_eq_zero]
      intro hmem
      obtain ⟨v, _, hv⟩ := List.mem_map.mp hmem
      exact vtx_call_ne_next_tag v hv
    simp only [List.count_append, List.count_cons, h0]
    simp
  · intro c hc
    simp only [List.mem_cons, List.mem_singleton, List.not_mem_nil, or_false] at hc
    rcases hc with rfl | rfl | rfl | rfl <;> rfl
  · intro c hc
    obtain ⟨v, _, rfl⟩ := List.mem_map.mp hc
    exact vtx_call_is_append v
  · intro v hv
    unfold linear_vertices at hv
    rcases List.mem_append.mp hv with h | h
    · obtain ⟨k, _, rfl⟩ := List.mem_map.mp h
      rfl
    · obtain ⟨k, _, rfl⟩ := List.mem_map.mp h
      rfl

/-- Witness of C2: with the pool at 7, the five vertices carry tag 7 and the pool
is left at 8. -/
theorem C2_linear_single_shared_tag_witness :
    (MPIR_TSP_Ineighbor_alltoallw_sched_allcomm_linear (demo_services 0) 1000
      (demo_array 1) (demo_array 8) (demo_array 5) 2000
      (demo_array 2) (demo_array 16) (demo_array 6) demo_world).2.comm = 8 :=
  (C2_linear_single_shared_tag (demo_services 0) 1000
      (demo_array 1) (demo_array 8) (demo_array 5) 2000
      (demo_array 2) (demo_array 16) (demo_array 6) demo_world (by decide)).1

/-- C3: when the neighbor-count lookup, the neighbor-list lookup or the tag draw
fails, the scheduling routine returns the code of that failure and the schedule
is as it was before the call; and when the scheduling routine returns an error
the non-blocking entry point returns that error, `*req` is `NULL`, and
`MPIR_TSP_sched_start` has not been called. -/
theorem C3_linear_errors_before_any_vertex {κ : Type} (S : Services κ)
    (sendbuf : Int) (sendcounts sdispls sendtypes : Nat → Int)
    (recvbuf : Int) (recvcounts rdispls recvtypes : Nat → Int) (w : World κ)
    (comm : κ) (req : Option Int) (trace : List Call) :
    ((S.MPIR_Topo_canon_nhb_count w.comm).1 ≠ MPI_SUCCESS →
      (MPIR_TSP_Ineighbor_alltoallw_sched_allcomm_linear S sendbuf sendcounts sdispls
        sendtypes recvbuf recvcounts rdispls recvtypes w).1 = (S.MPIR_Topo_canon_nhb_count w.comm).1 ∧
      (MPIR_TSP_Ineighbor_alltoallw_sched_allcomm_linear S sendbuf sendcounts sdispls
        sendtypes recvbuf recvcounts rdispls recvtypes w).2.sched = w.sched) ∧
    ((S.MPIR_Topo_canon_nhb_count w.comm).1 = MPI_SUCCESS →
      S.MPIR_CHKLMEM_MALLOC (nbytes_int (S.MPIR_Topo_canon_nhb_count w.comm).2.1) = MPI_SUCCESS →
      S.MPIR_CHKLMEM_MALLOC (nbytes_int (S.MPIR_Topo_canon_nhb_count w.comm).2.2.1) = MPI_SUCCESS →
      (S.MPIR_Topo_canon_nhb w.comm (S.MPIR_Topo_canon_nhb_count w.comm).2.1
        (S.MPIR_Topo_canon_nhb_count w.comm).2.2.1).1 ≠ MPI_SUCCESS →
      (MPIR_TSP_Ineighbor_alltoallw_sched_allcomm_linear S sendbuf sendcounts sdispls
        sendtypes recvbuf recvcounts rdispls recvtypes w).1 =
          (S.MPIR_Topo_canon_nhb w.comm (S.MPIR_Topo_canon_nhb_count w.comm).2.1
            (S.MPIR_Topo_canon_nhb_count w.comm).2.2.1).1 ∧
      (MPIR_TSP_Ineighbor_alltoallw_sched_allcomm_linear S sendbuf sendcounts sdispls
        sendtypes recvbuf recvcounts rdispls recvtypes w).2.sched = w.sched) ∧
    ((S.MPIR_Topo_canon_nhb_count w.comm).1 = MPI_SUCCESS →
      S.MPIR_CHKLMEM_MALLOC (nbytes_int (S.MPIR_Topo_canon_nhb_count w.comm).2.1) = MPI_SUCCESS →
      S.MPIR_CHKLMEM_MALLOC (nbytes_int (S.MPIR_Topo_canon_nhb_count w.comm).2.2.1) = MPI_SUCCESS →
      (S.MPIR_Topo_canon_nhb w.comm (S.MPIR_Topo_canon_nhb_count w.comm).2.1
        (S.MPIR_Topo_canon_nhb_count w.comm).2.2.1).1 = MPI_SUCCESS →
      (S.MPIR_Sched_next_tag w.comm).1 ≠ MPI_SUCCESS →
      (MPIR_TSP_Ineighbor_alltoallw_sched_allcomm_linear S sendbuf sendcounts sdispls
        sendtypes recvbuf recvcounts rdispls recvtypes w).1 = (S.MPIR_Sched_next_tag w.comm).1 ∧
      (MPIR_TSP_Ineighbor_alltoallw_sched_allcomm_linear S sendbuf sendcounts sdispls
        sendtypes recvbuf recvcounts rdispls recvtypes w).2.sched = w.sched) ∧
    ((MPIR_TSP_Ineighbor_alltoallw_sched_allcomm_linear S sendbuf sendcounts sdispls
        sendtypes recvbuf recvcounts rdispls recvtypes w).1 ≠ MPI_SUCCESS →
      (MPIR_TSP_Ineighbor_alltoallw_sched_allcomm_linear S sendbuf sendcounts sdispls
        sendtypes recvbuf recvcounts rdispls recvtypes w).2.sched = w.sched ∧
      ∃ suf : List Call,
        (MPIR_TSP_Ineighbor_alltoallw_sched_allcomm_linear S sendbuf sendcounts sdispls
          sendtypes recvbuf recvcounts rdispls recvtypes w).2.trace = w.trace ++ suf ∧
        ∀ c ∈ suf, c.is_append = false) ∧
    (S.MPL_malloc_sched = true →
      (MPIR_TSP_Ineighbor_alltoallw_sched_allcomm_linear S sendbuf sendcounts sdispls
        sendtypes recvbuf recvcounts rdispls recvtypes
        (World.mk comm MPIR_TSP_sched_create
          (trace ++ [Call.MPL_malloc_sched] ++ [Call.MPIR_TSP_sched_create]))).1 ≠ MPI_SUCCESS →
      ∃ res : LinearResult κ,
        MPIR_TSP_Ineighbor_alltoallw_allcomm_linear S sendbuf sendcounts sdispls sendtypes
          recvbuf recvcounts rdispls recvtypes comm req trace = some res ∧
        res.mpi_errno = (MPIR_TSP_Ineighbor_alltoallw_sched_allcomm_linear S sendbuf sendcounts
          sdispls sendtypes recvbuf recvcounts rdispls recvtypes
          (World.mk comm MPIR_TSP_sched_create
            (trace ++ [Call.MPL_malloc_sched] ++ [Call.MPIR_TSP_sched_create]))).1 ∧
        res.req = none ∧
        res.sched = MPIR_TSP_sched_create ∧
        ∃ suf : List Call, res.trace = trace ++ suf ∧ Call.MPIR_TSP_sched_start ∉ suf) := by
  have herr := sched_linear_errno S sendbuf sendcounts sdispls sendtypes recvbuf recvcounts
    rdispls recvtypes w
  have hfail := sched_linear_failure S sendbuf sendcounts sdispls sendtypes recvbuf recvcounts
    rdispls recvtypes w
  refine ⟨?_, ?_, ?_, ?_, ?_⟩
  · intro h1
    have e : (MPIR_TSP_Ineighbor_alltoallw_sched_allcomm_linear S sendbuf sendcounts sdispls
        sendtypes recvbuf recvcounts rdispls recvtypes w).1 = (S.MPIR_Topo_canon_nhb_count w.comm).1 := by
      rw [herr, if_pos h1]
    exact ⟨e, (hfail (e ▸ h1)).1⟩
  · intro h1 h2 h3 h4
    have e : (MPIR_TSP_Ineighbor_alltoallw_sched_allcomm_linear S sendbuf sendcounts sdispls
        sendtypes recvbuf recvcounts rdispls recvtypes w).1 =
          (S.MPIR_Topo_canon_nhb w.comm (S.MPIR_Topo_canon_nhb_count w.comm).2.1
            (S.MPIR_Topo_canon_nhb_count w.comm).2.2.1).1 := by
      rw [herr, if_neg (not_not.mpr h1), if_neg (not_not.mpr h2), if_neg (not_not.mpr h3),
        if_pos h4]
    exact ⟨e, (hfail (e ▸ h4)).1⟩
  · intro h1 h2 h3 h4 h5
    have e : (MPIR_TSP_Ineighbor_alltoallw_sched_allcomm_linear S sendbuf sendcounts sdispls
        sendtypes recvbuf recvcounts rdispls recvtypes w).1 = (S.MPIR_Sched_next_tag w.comm).1 := by
      rw [herr, if_neg (not_not.mpr h1), if_neg (not_not.mpr h2), if_neg (not_not.mpr h3),
        if_neg (not_not.mpr h4)]
    exact ⟨e, (hfail (e ▸ h5)).1⟩
  · intro h
    obtain ⟨hs, suf, ht, hsuf⟩ := hfail h
    exact ⟨hs, suf, ht, fun c hc => (hsuf c hc).1⟩
  · intro hm h
    obtain ⟨hs, suf, ht, hsuf⟩ := sched_linear_failure S sendbuf sendcounts sdispls sendtypes
      recvbuf recvcounts rdispls recvtypes
      (World.mk comm MPIR_TSP_sched_create
        (trace ++ [Call.MPL_malloc_sched] ++ [Call.MPIR_TSP_sched_create])) h
    unfold MPIR_TSP_Ineighbor_alltoallw_allcomm_linear
    simp only [hm, not_true_eq_false, if_false]
    rw [if_pos h]
    refine ⟨_, rfl, rfl, rfl, hs, [Call.MPL_malloc_sched, Call.MPIR_TSP_sched_create] ++ suf, ?_, ?_⟩
    · simp only [ht]
      simp
    · intro hmem
      rcases List.mem_append.mp hmem with h' | h'
      · simp at h'
      · exact (hsuf _ h').2 rfl

/-- Witness of C3: the tag draw fails with code 15; the entry point returns 15,
leaves `*req` at `NULL` and an empty schedule that was never started. -/
theorem C3_linear_errors_before_any_vertex_witness :
    ∃ res : LinearResult Nat,
      MPIR_TSP_Ineighbor_alltoallw_allcomm_linear (demo_services 3) 1000
        (demo_array 1) (demo_array 8) (demo_array 5) 2000
        (demo_array 2) (demo_array 16) (demo_array 6) 7 (some 99) [] = some res ∧
      res.mpi_errno = 15 ∧ res.req = none ∧ res.sched = MPIR_TSP_sched_create := by
  obtain ⟨res, h1, h2, h3, h4, _⟩ :=
    (C3_linear_errors_before_any_vertex (demo_services 3) 1000
      (demo_array 1) (demo_array 8) (demo_array 5) 2000
      (demo_array 2) (demo_array 16) (demo_array 6) demo_world 7 (some 99) []).2.2.2.2
      (by decide) (by decide)
  exact ⟨res, h1, h2.trans (by decide), h3, h4⟩

theorem getElem?_first_block {α : Type} (a : List α) (f g : Nat → α) (n m k : Nat)
    (h : k < n) :
    (a ++ ((List.range n).map f ++ (List.range m).map g))[a.length + k]? = some (f k) := by
  rw [List.getElem?_append_right (by omega)]
  simp [List.getElem?_append_left, h, List.getElem?_range]

theorem getElem?_second_block {α : Type} (a : List α) (f g : Nat → α) (n m k : Nat)
    (h : k < m) :
    (a ++ ((List.range n).map f ++ (List.range m).map g))[a.length + n + k]? = some (g k) := by
  rw [List.getElem?_append_right (by omega)]
  rw [List.getElem?_append_right (by simp; omega)]
  have e : a.length + n + k - a.length - ((List.range n).map f).length = k := by
    simp; omega
  rw [e, List.getElem?_map, List.getElem?_range h]
  rfl

theorem map_range_congr {α : Type} (f g : Nat → α) (n : Nat) (h : ∀ k, k < n → f k = g k) :
    (List.range n).map f = (List.range n).map g := by
  apply List.map_congr_left
  intro k hk
  exact h k (List.mem_range.mp hk)

/-- C7: the vertex sequence of a successful call is fixed by its inputs: with
`n` vertices in the schedule before the call, for `k < outdegree` the vertex at
index `n + k` is the send of `sendcounts[k]` elements of `sendtypes[k]` from
`sendbuf + sdispls[k]` to `dsts[k]`; for `l < indegree` the vertex at index
`n + outdegree + l` is the receive of `recvcounts[l]` elements of
`recvtypes[l]` into `recvbuf + rdispls[l]` from `srcs[l]`; nothing follows
them; and a second successful call with the same inputs whose services report
the same degrees, peers and tag yields the same vertex sequence. -/
theorem C7_linear_vertex_sequence {κ κ' : Type} (S : Services κ) (S' : Services κ')
    (sendbuf : Int) (sendcounts sdispls sendtypes : Nat → Int)
    (recvbuf : Int) (recvcounts rdispls recvtypes : Nat → Int) (w : World κ) (w' : World κ')
    (h_ok : (MPIR_TSP_Ineighbor_alltoallw_sched_allcomm_linear S sendbuf sendcounts sdispls
      sendtypes recvbuf recvcounts rdispls recvtypes w).1 = MPI_SUCCESS) :
    (∀ k : Nat, (k : Int) < (S.MPIR_Topo_canon_nhb_count w.comm).2.2.1 →
      (MPIR_TSP_Ineighbor_alltoallw_sched_allcomm_linear S sendbuf sendcounts sdispls
        sendtypes recvbuf recvcounts rdispls recvtypes w).2.sched.vtcs[w.sched.vtcs.length + k]? =
        some (Vertex.mk VtxKind.isend (sendbuf + sdispls k) (sendcounts k) (sendtypes k)
          ((S.MPIR_Topo_canon_nhb w.comm (S.MPIR_Topo_canon_nhb_count w.comm).2.1
            (S.MPIR_Topo_canon_nhb_count w.comm).2.2.1).2.2 k)
          (S.MPIR_Sched_next_tag w.comm).2.1 [])) ∧
    (∀ l : Nat, (l : Int) < (S.MPIR_Topo_canon_nhb_count w.comm).2.1 →
      (MPIR_TSP_Ineighbor_alltoallw_sched_allcomm_linear S sendbuf sendcounts sdispls
        sendtypes recvbuf recvcounts rdispls recvtypes w).2.sched.vtcs[w.sched.vtcs.length +
          (S.MPIR_Topo_canon_nhb_count w.comm).2.2.1.toNat + l]? =
        some (Vertex.mk VtxKind.irecv (recvbuf + rdispls l) (recvcounts l) (recvtypes l)
          ((S.MPIR_Topo_canon_nhb w.comm (S.MPIR_Topo_canon_nhb_count w.comm).2.1
            (S.MPIR_Topo_canon_nhb_count w.comm).2.2.1).2.1 l)
          (S.MPIR_Sched_next_tag w.comm).2.1 [])) ∧
    ((MPIR_TSP_Ineighbor_alltoallw_sched_allcomm_linear S sendbuf sendcounts sdispls
        sendtypes recvbuf recvcounts rdispls recvtypes w).2.sched.vtcs.length =
      w.sched.vtcs.length + (S.MPIR_Topo_canon_nhb_count w.comm).2.2.1.toNat +
        (S.MPIR_Topo_canon_nhb_count w.comm).2.1.toNat) ∧
    ((MPIR_TSP_Ineighbor_alltoallw_sched_allcomm_linear S' sendbuf sendcounts sdispls
        sendtypes recvbuf recvcounts rdispls recvtypes w').1 = MPI_SUCCESS →
      w'.sched = w.sched →
      (S'.MPIR_Topo_canon_nhb_count w'.comm).2.1 = (S.MPIR_Topo_canon_nhb_count w.comm).2.1 →
      (S'.MPIR_Topo_canon_nhb_count w'.comm).2.2.1 = (S.MPIR_Topo_canon_nhb_count w.comm).2.2.1 →
      (∀ k : Nat, (k : Int) < (S.MPIR_Topo_canon_nhb_count w.comm).2.2.1 →
        (S'.MPIR_Topo_canon_nhb w'.comm (S.MPIR_Topo_canon_nhb_count w.comm).2.1
          (S.MPIR_Topo_canon_nhb_count w.comm).2.2.1).2.2 k =
        (S.MPIR_Topo_canon_nhb w.comm (S.MPIR_Topo_canon_nhb_count w.comm).2.1
          (S.MPIR_Topo_canon_nhb_count w.comm).2.2.1).2.2 k) →
      (∀ l : Nat, (l : Int) < (S.MPIR_Topo_canon_nhb_count w.comm).2.1 →
        (S'.MPIR_Topo_canon_nhb w'.comm (S.MPIR_Topo_canon_nhb_count w.comm).2.1
          (S.MPIR_Topo_canon_nhb_count w.comm).2.2.1).2.1 l =
        (S.MPIR_Topo_canon_nhb w.comm (S.MPIR_Topo_canon_nhb_count w.comm).2.1
          (S.MPIR_Topo_canon_nhb_count w.comm).2.2.1).2.1 l) →
      (S'.MPIR_Sched_next_tag w'.comm).2.1 = (S.MPIR_Sched_next_tag w.comm).2.1 →
      (MPIR_TSP_Ineighbor_alltoallw_sched_allcomm_linear S' sendbuf sendcounts sdispls
        sendtypes recvbuf recvcounts rdispls recvtypes w').2.sched =
      (MPIR_TSP_Ineighbor_alltoallw_sched_allcomm_linear S sendbuf sendcounts sdispls
        sendtypes recvbuf recvcounts rdispls recvtypes w).2.sched) := by
  rw [sched_linear_success S _ _ _ _ _ _ _ _ _ h_ok]
  refine ⟨?_, ?_, ?_, ?_⟩
  · intro k hk
    have hk' : k < (S.MPIR_Topo_canon_nhb_count w.comm).2.2.1.toNat := by omega
    simp only [linear_vertices]
    rw [getElem?_first_block _ _ _ _ _ _ hk']
    rfl
  · intro l hl
    have hl' : l < (S.MPIR_Topo_canon_nhb_count w.comm).2.1.toNat := by omega
    simp only [linear_vertices]
    rw [getElem?_second_block _ _ _ _ _ _ hl']
    rfl
  · simp [linear_vertices, Nat.add_assoc]
  · intro h_ok' hw hin hout hd hs ht
    rw [sched_linear_success S' _ _ _ _ _ _ _ _ _ h_ok']
    simp only [linear_vertices, hw, hin, hout, ht]
    congr 3
    · apply map_range_congr
      intro k hk
      simp only [send_vertex]
      rw [hd k (by omega)]
    · apply map_range_congr
      intro l hl
      simp only [recv_vertex]
      rw [hs l (by omega)]

/-- Witness of C7: vertex 1 of the demo run is the send to peer 21 and vertex 4
is the receive from peer 11. -/
theorem C7_linear_vertex_sequence_witness :
    (MPIR_TSP_Ineighbor_alltoallw_sched_allcomm_linear (demo_services 0) 1000
        (demo_array 1) (demo_array 8) (demo_array 5) 2000
        (demo_array 2) (demo_array 16) (demo_array 6) demo_world).2.sched.vtcs[0 + 1]? =
      some (Vertex.mk VtxKind.isend 1108 101 105 21 7 []) ∧
    (MPIR_TSP_Ineighbor_alltoallw_sched_allcomm_linear (demo_services 0) 1000
        (demo_array 1) (demo_array 8) (demo_array 5) 2000
        (demo_array 2) (demo_array 16) (demo_array 6) demo_world).2.sched.vtcs[0 + 3 + 1]? =
      some (Vertex.mk VtxKind.irecv 2116 102 106 11 7 []) :=
  ⟨(C7_linear_vertex_sequence (demo_services 0) (demo_services 0) 1000
      (demo_array 1) (demo_array 8) (demo_array 5) 2000
      (demo_array 2) (demo_array 16) (demo_array 6) demo_world demo_world (by decide)).1 1
      (by decide),
   (C7_linear_vertex_sequence (demo_services 0) (demo_services 0) 1000
      (demo_array 1) (demo_array 8) (demo_array 5) 2000
      (demo_array 2) (demo_array 16) (demo_array 6) demo_world demo_world (by decide)).2.1 1
      (by decide)⟩

theorem ring_sched_eq (n : Nat) (tag dt : Int) (sendbuf sdispl recvbuf rdispl : Nat → Int)
    (q : Nat) :
    ring_sched n tag dt sendbuf sdispl recvbuf rdispl q =
      MPIR_TSP_sched_t.mk
        [Vertex.mk VtxKind.isend (sendbuf q + sdispl q) 1 dt (((q : Int) + 1) % (n : Int)) tag [],
         Vertex.mk VtxKind.irecv (recvbuf q + rdispl q) 1 dt (((q : Int) - 1) % (n : Int)) tag []] := by
  rfl

/-- C5: ring scenario.  In a group of `n` ranks where rank `q` has the single
incoming peer `(q - 1) mod n` and the single outgoing peer `(q + 1) mod n`,
every rank builds its schedule with the scheduling routine, holds its own rank
number in its send buffer and draws the same tag; after the schedules have run
on the mock transport, the receive buffer of every rank `r` holds
`(r - 1) mod n`. -/
theorem C5_ring_exchange (n : Nat) (tag dt : Int) (sendbuf sdispl recvbuf rdispl : Nat → Int)
    (mems : Nat → Int → Int) (r : Nat) (hr : r < n)
    (h_own : ∀ q : Nat, q < n → mems q (sendbuf q + sdispl q) = (q : Int)) :
    mock_run (ring_sched n tag dt sendbuf sdispl recvbuf rdispl) mems r (recvbuf r + rdispl r) =
      ((r : Int) - 1) % (n : Int) := by
  have hn : (0 : Int) < (n : Int) := by omega
  have hs0 : 0 ≤ ((r : Int) - 1) % (n : Int) := Int.emod_nonneg _ (by omega)
  have hs1 : ((r : Int) - 1) % (n : Int) < (n : Int) := Int.emod_lt_of_pos _ hn
  obtain ⟨s, hs⟩ : ∃ s : Nat, ((r : Int) - 1) % (n : Int) = (s : Int) :=
    ⟨(((r : Int) - 1) % (n : Int)).toNat, (Int.toNat_of_nonneg hs0).symm⟩
  have hsn : s < n := by omega
  have hback : ((s : Int) + 1) % (n : Int) = (r : Int) := by
    rw [← hs, Int.emod_add_emod]
    simp only [sub_add_cancel]
    exact Int.emod_eq_of_lt (by omega) (by omega)
  unfold mock_run
  rw [ring_sched_eq]
  simp only [List.foldl_cons, List.foldl_nil, mock_complete, hs, Int.toNat_ofNat]
  rw [ring_sched_eq]
  simp [mock_match, hback, mock_store, h_own s hsn]

/-- Witness of C5: the case of the spec, four ranks; rank 0 receives 3 and rank 2
receives 1. -/
theorem C5_ring_exchange_witness :
    mock_run (ring_sched 4 7 MPI_INT (fun _ => 1000) (fun _ => 0) (fun _ => 2000) (fun _ => 0))
      ring_mems 0 (2000 + 0) = ((0 : Nat) - 1 : Int) % ((4 : Nat) : Int) ∧
    mock_run (ring_sched 4 7 MPI_INT (fun _ => 1000) (fun _ => 0) (fun _ => 2000) (fun _ => 0))
      ring_mems 2 (2000 + 0) = ((2 : Nat) - 1 : Int) % ((4 : Nat) : Int) :=
  ⟨C5_ring_exchange 4 7 MPI_INT (fun _ => 1000) (fun _ => 0) (fun _ => 2000) (fun _ => 0)
      ring_mems 0 (by decide) (fun q _ => by simp [ring_mems]),
   C5_ring_exchange 4 7 MPI_INT (fun _ => 1000) (fun _ => 0) (fun _ => 2000) (fun _ => 0)
      ring_mems 2 (by decide) (fun q _ => by simp [ring_mems])⟩

/-! ## Part 2: theorems -/

theorem tdiv_two_natCast (n : Nat) : Int.tdiv (n : Int) 2 = (n : Int) / 2 :=
  Int.tdiv_eq_ediv (by omega) (by omega)

theorem wrap_aint_of_in_range (x : Int) (h : in_aint_range x) : wrap_aint x = x := by
  unfold wrap_aint
  obtain ⟨h1, h2⟩ := h
  omega

theorem wrap_aint_add_left (x y : Int) : wrap_aint (wrap_aint x + y) = wrap_aint (x + y) := by
  unfold wrap_aint
  omega

/-- What a successful `update_yaksa_type` leaves in `*newtype`. -/
theorem update_yaksa_type_ok (E : TypeEnv) (newtype : MPIR_Datatype) (oldtype count : Int)
    (nt : MPIR_Datatype) (h : update_yaksa_type E newtype oldtype count = TypeResult.ok nt) :
    nt.handle = newtype.handle ∧ yaksa_metadata_in_aint E nt ∧
    (count = 0 → nt.n_builtin_elements = newtype.n_builtin_elements ∧
      nt.builtin_element_size = newtype.builtin_element_size ∧
      nt.basic_type = newtype.basic_type) ∧
    (count ≠ 0 → elements_in_aint E oldtype count nt) := by
  unfold update_yaksa_type at h
  simp only at h
  split_ifs at h with h1 h2 h3 h4 h5 h6 h7
  all_goals
    cases h
    simp_all [yaksa_metadata_in_aint, elements_in_aint]

/-- Within the range of `MPI_Aint` the metadata read back from yaksa is the
metadata yaksa reports. -/
theorem yaksa_metadata_in_range (E : TypeEnv) (nt : MPIR_Datatype)
    (h : yaksa_metadata_in_aint E nt) (hr : yaksa_reports_in_range E nt) :
    agrees_with_yaksa E nt := by
  obtain ⟨a1, a2, a3, a4, a5, a6, a7, a8, a9⟩ := h
  obtain ⟨r1, r2, r3, r4⟩ := hr
  have w1 : wrap_aint ((E.yaksa_type_get_size nt.handle).2 : Int) =
      ((E.yaksa_type_get_size nt.handle).2 : Int) :=
    wrap_aint_of_in_range _ ⟨by omega, r1⟩
  have w2 : wrap_aint ((E.yaksa_iov_len 2 nt.handle).2 : Int) =
      ((E.yaksa_iov_len 2 nt.handle).2 : Int) :=
    wrap_aint_of_in_range _ ⟨by omega, r2⟩
  refine ⟨a1.trans w1, a2, a3, a4, ?_, ?_, a7, a8, ?_⟩
  · rw [a5, a2, a3]
    exact wrap_aint_of_in_range _ r3
  · rw [a6, a4]
    exact wrap_aint_of_in_range _ r4
  · intro hne
    obtain ⟨b1, b2⟩ := a9 hne
    refine ⟨b1, ?_⟩
    rw [b2, w2, tdiv_two_natCast]
    omega

/-- When the product with the element count of a derived `oldtype` fits
`MPI_Aint`, the element metadata is the one the specification words. -/
theorem elements_in_range (E : TypeEnv) (oldtype c : Int) (nt : MPIR_Datatype)
    (h : elements_in_aint E oldtype c nt)
    (hr : E.HANDLE_IS_BUILTIN oldtype = false →
      in_aint_range (c * (E.MPIR_Datatype_get_ptr oldtype).n_builtin_elements)) :
    elements_from_oldtype E oldtype c nt := by
  unfold elements_in_aint at h
  unfold elements_from_oldtype
  by_cases hb : E.HANDLE_IS_BUILTIN oldtype = true
  · simpa [hb] using h
  · have hb' : E.HANDLE_IS_BUILTIN oldtype = false := by simpa using hb
    simp only [hb', Bool.false_eq_true, if_false] at h ⊢
    rw [wrap_aint_of_in_range _ (hr hb')] at h
    exact h

theorem sum_blocklengths_eq (count : Int) (a : Nat → Int) :
    sum_blocklengths count a = wrap_aint (((List.range count.toNat).map a).sum) := by
  unfold sum_blocklengths
  have key : ∀ (l : List Nat) (z : Int),
      wrap_aint (l.foldl (fun old_ct i => wrap_aint (old_ct + a i)) z) =
        wrap_aint (z + (l.map a).sum) ∧
      (l ≠ [] → l.foldl (fun old_ct i => wrap_aint (old_ct + a i)) z =
        wrap_aint (z + (l.map a).sum)) := by
    intro l
    induction l with
    | nil => intro z; simp
    | cons i l ih =>
      intro z
      have e : wrap_aint (wrap_aint (z + a i) + (l.map a).sum) =
          wrap_aint (z + (a i + (l.map a).sum)) := by
        rw [wrap_aint_add_left, add_assoc]
      simp only [List.foldl_cons, List.map_cons, List.sum_cons]
      refine ⟨((ih _).1).trans e, fun _ => ?_⟩
      by_cases hl : l = []
      · subst hl
        simp
      · rw [(ih _).2 hl, e]
  by_cases hl : List.range count.toNat = []
  · rw [hl]
    rfl
  · rw [(key _ 0).2 hl, zero_add]

/-- The unit count a constructor computes in `MPI_Aint` is the unit count of the
specification when that one fits `MPI_Aint`. -/
theorem unit_count_aint_eq (c : Ctor) (h : in_aint_range c.unit_count) :
    c.unit_count_aint = c.unit_count := by
  cases c with
  | contig count => rfl
  | vector count blocklength stride => exact wrap_aint_of_in_range _ h
  | hvector count blocklength stride => exact wrap_aint_of_in_range _ h
  | indexed_block count blocklength disps => exact wrap_aint_of_in_range _ h
  | hindexed_block count blocklength disps => exact wrap_aint_of_in_range _ h
  | indexed count blkls disps =>
    simp only [Ctor.unit_count_aint, Ctor.unit_count, sum_blocklengths_eq]
    exact wrap_aint_of_in_range _ h
  | hindexed count blkls disps =>
    simp only [Ctor.unit_count_aint, Ctor.unit_count, sum_blocklengths_eq]
    exact wrap_aint_of_in_range _ h
  | dup => rfl
  | resized lb extent => rfl

/-- A successful constructor other than the struct constructor is a successful
`update_yaksa_type` on the handle yaksa returned, with the unit count the
constructor computes. -/
theorem ctor_run_ok (E : TypeEnv) (c : Ctor) (oldtype : Int) (newtype nt : MPIR_Datatype)
    (h : c.run E oldtype newtype = TypeResult.ok nt) :
    ∃ hdl : Int,
      update_yaksa_type E { newtype with handle := hdl } oldtype c.unit_count_aint =
        TypeResult.ok nt := by
  cases c with
  | contig count =>
    simp only [Ctor.run, MPIR_Typerep_create_contig] at h
    split_ifs at h
    exact ⟨_, h⟩
  | vector count blocklength stride =>
    simp only [Ctor.run, MPIR_Typerep_create_vector] at h
    split_ifs at h
    exact ⟨_, h⟩
  | hvector count blocklength stride =>
    simp only [Ctor.run, MPIR_Typerep_create_hvector] at h
    split_ifs at h
    exact ⟨_, h⟩
  | indexed_block count blocklength disps =>
    simp only [Ctor.run, MPIR_Typerep_create_indexed_block] at h
    split_ifs at h
    all_goals exact ⟨_, h⟩
  | hindexed_block count blocklength disps =>
    simp only [Ctor.run, MPIR_Typerep_create_hindexed_block] at h
    split_ifs at h
    exact ⟨_, h⟩
  | indexed count blkls disps =>
    simp only [Ctor.run, MPIR_Typerep_create_indexed] at h
    split_ifs at h
    all_goals exact ⟨_, h⟩
  | hindexed count blkls disps =>
    simp only [Ctor.run, MPIR_Typerep_create_hindexed] at h
    split_ifs at h
    all_goals exact ⟨_, h⟩
  | dup =>
    simp only [Ctor.run, MPIR_Typerep_create_dup] at h
    split_ifs at h
    exact ⟨_, h⟩
  | resized lb extent =>
    simp only [Ctor.run, MPIR_Typerep_create_resized] at h
    split_ifs at h
    exact ⟨_, h⟩

/-- The loop state that goes with a list of counted members. -/
theorem struct_el_step_summary (E : TypeEnv) (blks types : Nat → Int) (M : List (Int × Int))
    (i : Nat) (hb : blks i ≠ 0) :
    struct_el_step E blks types
      (ElState.mk (struct_summary E.MPI_DATATYPE_NULL M).1
        (struct_summary E.MPI_DATATYPE_NULL M).2 (if M = [] then 0 else 1)) i =
      ElState.mk
        (struct_summary E.MPI_DATATYPE_NULL
          (M ++ [(member_el_sz E types i, member_el_type E types i)])).1
        (struct_summary E.MPI_DATATYPE_NULL
          (M ++ [(member_el_sz E types i, member_el_type E types i)])).2 1 := by
  cases M with
  | nil => simp [struct_el_step, hb, struct_summary]
  | cons x rest =>
    simp only [struct_el_step, hb, if_false, struct_summary, List.cons_append, List.all_append,
      List.all_cons, List.all_nil, Bool.and_true, Bool.and_eq_true, decide_eq_true_eq,
      reduceCtorEq, one_ne_zero, ne_eq]
    by_cases hsz : (rest.all fun y => decide (y.1 = x.1)) = true
    · by_cases hty : (rest.all fun y => decide (y.2 = x.2)) = true
      · by_cases e1 : member_el_sz E types i = x.1
        · by_cases e2 : member_el_type E types i = x.2
          · simp [hsz, hty, e1, e2]
          · simp [hsz, hty, e1, e2, Ne.symm e2]
        · simp [hsz, hty, e1, Ne.symm e1]
      · by_cases e1 : member_el_sz E types i = x.1
        · by_cases e2 : E.MPI_DATATYPE_NULL = member_el_type E types i
          · simp [hsz, hty, e1, e2]
          · simp [hsz, hty, e1, e2]
        · simp [hsz, hty, e1, Ne.symm e1]
    · by_cases e1 : (-1 : Int) = member_el_sz E types i
      · by_cases e2 : E.MPI_DATATYPE_NULL = member_el_type E types i
        · simp [hsz, e1, e2]
        · simp [hsz, e1, e2]
      · simp [hsz, e1]

theorem struct_el_loop_eq (E : TypeEnv) (count : Int) (blks types : Nat → Int) :
    struct_el_loop E count blks types =
      ElState.mk (struct_summary E.MPI_DATATYPE_NULL (counted_members E count blks types)).1
        (struct_summary E.MPI_DATATYPE_NULL (counted_members E count blks types)).2
        (if counted_members E count blks types = [] then 0 else 1) := by
  unfold struct_el_loop counted_members
  generalize count.toNat = n
  induction n with
  | zero => simp [struct_summary]
  | succ n ih =>
    rw [List.range_succ, List.foldl_append, ih, List.filterMap_append]
    by_cases hb : blks n = 0
    · simp [struct_el_step, hb]
    · simp only [List.foldl_cons, List.foldl_nil, List.filterMap_cons, List.filterMap_nil, hb,
        if_false]
      rw [struct_el_step_summary E blks types _ n hb]
      simp

/-- What a successful `MPIR_Typerep_create_struct` leaves in `*newtype`. -/
theorem create_struct_ok (E : TypeEnv) (count : Int) (blks disps types : Nat → Int)
    (newtype nt : MPIR_Datatype)
    (h : MPIR_Typerep_create_struct E count blks disps types newtype = TypeResult.ok nt) :
    yaksa_metadata_in_aint E nt ∧ nt.n_builtin_elements = -1 ∧
    nt.builtin_element_size =
      (struct_summary E.MPI_DATATYPE_NULL (counted_members E count blks types)).1 ∧
    nt.basic_type =
      (struct_summary E.MPI_DATATYPE_NULL (counted_members E count blks types)).2 := by
  unfold MPIR_Typerep_create_struct at h
  simp only at h
  split_ifs at h
  all_goals
    split at h
    · rename_i nt0 hu
      cases h
      obtain ⟨_, hy, _, _⟩ := update_yaksa_type_ok E _ _ _ _ hu
      rw [struct_el_loop_eq]
      exact ⟨hy, rfl, rfl, rfl⟩
    · rename_i r hr
      exact absurd h (hr nt)

theorem mem_counted_members (E : TypeEnv) (count : Int) (blks types : Nat → Int)
    (a : Int × Int) :
    a ∈ counted_members E count blks types ↔
      ∃ i : Nat, (i : Int) < count ∧ blks i ≠ 0 ∧
        a = (member_el_sz E types i, member_el_type E types i) := by
  unfold counted_members
  simp only [List.mem_filterMap, List.mem_range]
  constructor
  · rintro ⟨i, hi, hsome⟩
    by_cases hb : blks i = 0
    · simp [hb] at hsome
    · simp only [hb, if_false, Option.some.injEq] at hsome
      exact ⟨i, by omega, hb, hsome.symm⟩
  · rintro ⟨i, hi, hb, rfl⟩
    exact ⟨i, by omega, by simp [hb]⟩

theorem struct_summary_mismatch (null : Int) (M : List (Int × Int)) (a b : Int × Int)
    (ha : a ∈ M) (hb : b ∈ M) (hne : a.1 ≠ b.1) : struct_summary null M = (-1, null) := by
  cases M with
  | nil => simp at ha
  | cons x rest =>
    simp only [struct_summary]
    have hall : ¬ (rest.all (fun y => decide (y.1 = x.1)) = true) := by
      intro hall
      rw [List.all_eq_true] at hall
      have key : ∀ c ∈ x :: rest, c.1 = x.1 := by
        intro c hc
        rcases List.mem_cons.mp hc with rfl | hc
        · rfl
        · simpa using hall c hc
      exact hne ((key a ha).trans (key b hb).symm)
    rw [if_neg hall]

theorem struct_summary_same_size (null s : Int) (M : List (Int × Int)) (hM : M ≠ [])
    (hs : ∀ a ∈ M, a.1 = s) :
    (struct_summary null M).1 = s ∧
    (∀ t : Int, (∀ a ∈ M, a.2 = t) → (struct_summary null M).2 = t) ∧
    ((¬ ∃ t : Int, ∀ a ∈ M, a.2 = t) → (struct_summary null M).2 = null) := by
  cases M with
  | nil => exact absurd rfl hM
  | cons x rest =>
    simp only [struct_summary]
    have hall : (rest.all (fun y => decide (y.1 = x.1))) = true := by
      rw [List.all_eq_true]
      intro c hc
      have h1 := hs c (List.mem_cons_of_mem _ hc)
      have h2 := hs x (List.mem_cons_self _ _)
      simp [h1, h2]
    rw [if_pos hall]
    refine ⟨hs x (List.mem_cons_self _ _), ?_, ?_⟩
    · intro t ht
      have hty : (rest.all (fun y => decide (y.2 = x.2))) = true := by
        rw [List.all_eq_true]
        intro c hc
        have h1 := ht c (List.mem_cons_of_mem _ hc)
        have h2 := ht x (List.mem_cons_self _ _)
        simp [h1, h2]
      simp only [hty, if_true]
      exact ht x (List.mem_cons_self _ _)
    · intro hno
      have hty : ¬ (rest.all (fun y => decide (y.2 = x.2))) = true := by
        intro hty
        rw [List.all_eq_true] at hty
        apply hno
        refine ⟨x.2, ?_⟩
        intro c hc
        rcases List.mem_cons.mp hc with rfl | hc
        · rfl
        · simpa using hty c hc
      rw [if_neg hty]

/-- C4: in `MPIR_Typerep_create_struct` an element-size mismatch wins over an
element-type mismatch: when two members with non-zero blocklength, at any two
positions `i, j < count`, differ in element size, a successful call leaves
`builtin_element_size = -1` and `basic_type = MPI_DATATYPE_NULL`, whatever the
basic types of the members are. -/
theorem C4_struct_size_mismatch_wins (E : TypeEnv) (count : Int)
    (array_of_blocklengths array_of_displacements array_of_types : Nat → Int)
    (newtype nt : MPIR_Datatype) (i j : Nat)
    (h_ok : MPIR_Typerep_create_struct E count array_of_blocklengths array_of_displacements
      array_of_types newtype = TypeResult.ok nt)
    (hi : (i : Int) < count) (hj : (j : Int) < count)
    (hbi : array_of_blocklengths i ≠ 0) (hbj : array_of_blocklengths j ≠ 0)
    (hne : member_el_sz E array_of_types i ≠ member_el_sz E array_of_types j) :
    nt.builtin_element_size = -1 ∧ nt.basic_type = E.MPI_DATATYPE_NULL := by
  obtain ⟨_, _, hsz, hty⟩ := create_struct_ok E count _ _ _ _ _ h_ok
  have hm := struct_summary_mismatch E.MPI_DATATYPE_NULL
    (counted_members E count array_of_blocklengths array_of_types) _ _
    ((mem_counted_members E count _ _ _).mpr ⟨i, hi, hbi, rfl⟩)
    ((mem_counted_members E count _ _ _).mpr ⟨j, hj, hbj, rfl⟩) hne
  rw [hsz, hty, hm]
  exact ⟨rfl, rfl⟩

/-- Witness of C4: a struct of an `MPI_INT`, an `MPI_INT` and an `MPI_DOUBLE`
member; the mismatch of sizes 4 and 8 shows at the last member. -/
theorem C4_struct_size_mismatch_wins_witness :
    ∃ nt : MPIR_Datatype,
      MPIR_Typerep_create_struct (demo_env 6 16 24) 3 (fun _ => 1) (demo_array 0)
        (demo_triple MPI_INT MPI_INT MPI_DOUBLE) stale_newtype = TypeResult.ok nt ∧
      nt.builtin_element_size = -1 ∧ nt.basic_type = 0x0c000000 := by
  have h : MPIR_Typerep_create_struct (demo_env 6 16 24) 3 (fun _ => 1) (demo_array 0)
      (demo_triple MPI_INT MPI_INT MPI_DOUBLE) stale_newtype =
      TypeResult.ok (MPIR_Datatype.mk 1 0 3 16 0 24 24 0 24 (-1) (-1) 0x0c000000) := by
    decide
  exact ⟨_, h, C4_struct_size_mismatch_wins (demo_env 6 16 24) 3 (fun _ => 1) (demo_array 0)
    (demo_triple MPI_INT MPI_INT MPI_DOUBLE) stale_newtype _ 0 2 h (by decide) (by decide)
    (by decide) (by decide) (by decide)⟩

/-- C6 (counterexample): `contig(INT_MAX)` over the derived type
`contig(INT_MAX)` of `MPI_INT` succeeds; yaksa reports the size
18446744056529682436, which is above `2^63`, and the `size` of the new type
reads -17179869180, so the metadata does not agree with what yaksa reports. -/
theorem C6_size_above_aint_range_counterexample :
    Ctor.run nested_contig_env (Ctor.contig 2147483647) demo_derived stale_newtype =
      TypeResult.ok (MPIR_Datatype.mk 1 1 1 (-17179869180) 0 (-17179869180) (-17179869180) 0
        (-17179869180) 4611686014132420609 4 MPI_INT) ∧
    ((nested_contig_env.yaksa_type_get_size 1).2 : Int) = 18446744056529682436 ∧
    ¬ agrees_with_yaksa nested_contig_env
      (MPIR_Datatype.mk 1 1 1 (-17179869180) 0 (-17179869180) (-17179869180) 0
        (-17179869180) 4611686014132420609 4 MPI_INT) := by
  refine ⟨by decide, by decide, ?_⟩
  intro h
  exact absurd h.1 (by decide)

/-- C6 (amended): after every successful constructor of `typerep_yaksa_create.c`
(the nine constructors with an `oldtype`, the struct constructor, and
`update_yaksa_type` itself) the metadata of the new type is what yaksa reports
for its handle, read as `MPI_Aint`; when the reported size and block count are
below `2^63` and `lb + extent` and `true_lb + true_extent` are in the range of
`MPI_Aint`, then `size`, `lb`, `extent` and `true_lb` are the values of yaksa,
`ub = lb + extent`, `true_ub = true_lb + true_extent`, and `is_contig = 1`
exactly when yaksa reports one contiguous block for two elements (then
`num_contig_blocks = 1`; otherwise `is_contig = 0` and `num_contig_blocks` is
the reported count divided by 2). -/
theorem C6_metadata_agrees_with_yaksa_in_range (E : TypeEnv) (c : Ctor) (oldtype : Int)
    (count : Int) (array_of_blocklengths array_of_displacements array_of_types : Nat → Int)
    (newtype nt : MPIR_Datatype) :
    (c.run E oldtype newtype = TypeResult.ok nt →
      yaksa_metadata_in_aint E nt ∧ (yaksa_reports_in_range E nt → agrees_with_yaksa E nt)) ∧
    (MPIR_Typerep_create_struct E count array_of_blocklengths array_of_displacements
        array_of_types newtype = TypeResult.ok nt →
      yaksa_metadata_in_aint E nt ∧ (yaksa_reports_in_range E nt → agrees_with_yaksa E nt)) ∧
    (update_yaksa_type E newtype oldtype count = TypeResult.ok nt →
      nt.handle = newtype.handle ∧ yaksa_metadata_in_aint E nt ∧
      (yaksa_reports_in_range E nt → agrees_with_yaksa E nt)) := by
  refine ⟨?_, ?_, ?_⟩
  · intro h
    obtain ⟨hdl, hu⟩ := ctor_run_ok E c oldtype newtype nt h
    have hm := (update_yaksa_type_ok E _ _ _ _ hu).2.1
    exact ⟨hm, yaksa_metadata_in_range E nt hm⟩
  · intro h
    have hm := (create_struct_ok E count _ _ _ _ _ h).1
    exact ⟨hm, yaksa_metadata_in_range E nt hm⟩
  · intro h
    have hm := (update_yaksa_type_ok E _ _ _ _ h).2.1
    exact ⟨(update_yaksa_type_ok E _ _ _ _ h).1, hm, yaksa_metadata_in_range E nt hm⟩

/-- Witness of C6: a vector of 3 blocks of 2 `MPI_INT` with stride 4, for which
yaksa reports 6 blocks for two elements, 24 bytes and extent 40. -/
theorem C6_metadata_agrees_with_yaksa_in_range_witness :
    agrees_with_yaksa (demo_env 6 24 40) (MPIR_Datatype.mk 1 0 3 24 0 40 40 0 40 6 4 MPI_INT) :=
  ((C6_metadata_agrees_with_yaksa_in_range (demo_env 6 24 40) (Ctor.vector 3 2 4) MPI_INT 0
    (fun _ => 0) (fun _ => 0) (fun _ => 0) stale_newtype
    (MPIR_Datatype.mk 1 0 3 24 0 40 40 0 40 6 4 MPI_INT)).1 (by decide)).2
    (by unfold yaksa_reports_in_range; decide)

/-- C8 (counterexample): `vector(INT_MAX, INT_MAX, 1)` over a derived type of
three `MPI_DOUBLE` elements passes every assertion and succeeds with
`c = INT_MAX * INT_MAX ≥ 1`; the code leaves
`n_builtin_elements = -4611686031312289789`, not
`c * oldtype.n_builtin_elements = 13835058042397261827`. -/
theorem C8_product_above_aint_range_counterexample :
    Ctor.run (demo_env 2 24 24) (Ctor.vector 2147483647 2147483647 1) demo_derived
        stale_newtype =
      TypeResult.ok (MPIR_Datatype.mk 1 0 1 24 0 24 24 0 24 (-4611686031312289789) 8
        MPI_DOUBLE) ∧
    1 ≤ (Ctor.vector 2147483647 2147483647 1).unit_count ∧
    (Ctor.vector 2147483647 2147483647 1).unit_count *
      ((demo_env 2 24 24).MPIR_Datatype_get_ptr demo_derived).n_builtin_elements =
        13835058042397261827 ∧
    ¬ elements_from_oldtype (demo_env 2 24 24) demo_derived
      (Ctor.vector 2147483647 2147483647 1).unit_count
      (MPIR_Datatype.mk 1 0 1 24 0 24 24 0 24 (-4611686031312289789) 8 MPI_DOUBLE) := by
  refine ⟨by decide, by decide, by decide, ?_⟩
  unfold elements_from_oldtype
  decide

/-- C8 (amended): for every successful constructor other than the struct
constructor the element metadata is computed in `MPI_Aint` from the unit count
the constructor computes; when the unit count `c` of the specification is at
least 1 and fits `MPI_Aint`, and for a derived `oldtype` the product
`c * oldtype.n_builtin_elements` fits `MPI_Aint`, then a builtin `oldtype` gives
`n_builtin_elements = c`, `builtin_element_size` the basic size of `oldtype`
and `basic_type = oldtype`, and a derived `oldtype` gives
`n_builtin_elements = c * oldtype.n_builtin_elements` and copies
`builtin_element_size` and `basic_type`.  Hence a vector and the contig of
`count * blocklength ≥ 1` over the same `oldtype` get the same element
metadata, and dup and resized keep the element metadata of `oldtype` (whose
`n_builtin_elements` is a value of `MPI_Aint`). -/
theorem C8_element_metadata_from_oldtype_in_range (E : TypeEnv) (c : Ctor) (oldtype : Int)
    (newtype nt : MPIR_Datatype)
    (h_ok : c.run E oldtype newtype = TypeResult.ok nt) :
    (c.unit_count_aint ≠ 0 → elements_in_aint E oldtype c.unit_count_aint nt) ∧
    (1 ≤ c.unit_count → in_aint_range c.unit_count →
      (E.HANDLE_IS_BUILTIN oldtype = false →
        in_aint_range (c.unit_count * (E.MPIR_Datatype_get_ptr oldtype).n_builtin_elements)) →
      elements_from_oldtype E oldtype c.unit_count nt) ∧
    (∀ (count blocklength stride : Int) (newtype1 newtype2 nt1 nt2 : MPIR_Datatype),
      1 ≤ count * blocklength →
      MPIR_Typerep_create_vector E count blocklength stride oldtype newtype1 = TypeResult.ok nt1 →
      MPIR_Typerep_create_contig E (count * blocklength) oldtype newtype2 = TypeResult.ok nt2 →
      nt1.n_builtin_elements = nt2.n_builtin_elements ∧
      nt1.builtin_element_size = nt2.builtin_element_size ∧
      nt1.basic_type = nt2.basic_type) ∧
    (∀ (lb extent : Int) (newtype1 nt1 : MPIR_Datatype),
      (MPIR_Typerep_create_dup E oldtype newtype1 = TypeResult.ok nt1 ∨
        MPIR_Typerep_create_resized E oldtype lb extent newtype1 = TypeResult.ok nt1) →
      (E.HANDLE_IS_BUILTIN oldtype = false →
        in_aint_range (E.MPIR_Datatype_get_ptr oldtype).n_builtin_elements →
        nt1.n_builtin_elements = (E.MPIR_Datatype_get_ptr oldtype).n_builtin_elements ∧
        nt1.builtin_element_size = (E.MPIR_Datatype_get_ptr oldtype).builtin_element_size ∧
        nt1.basic_type = (E.MPIR_Datatype_get_ptr oldtype).basic_type) ∧
      (E.HANDLE_IS_BUILTIN oldtype = true →
        nt1.n_builtin_elements = 1 ∧
        nt1.builtin_element_size = E.MPIR_Datatype_get_basic_size oldtype ∧
        nt1.basic_type = oldtype)) := by
  have main : ∀ (c : Ctor) (newtype nt : MPIR_Datatype),
      c.run E oldtype newtype = TypeResult.ok nt → c.unit_count_aint ≠ 0 →
      elements_in_aint E oldtype c.unit_count_aint nt := by
    intro c newtype nt h hc
    obtain ⟨hdl, hu⟩ := ctor_run_ok E c oldtype newtype nt h
    exact (update_yaksa_type_ok E _ _ _ _ hu).2.2.2 hc
  refine ⟨main c newtype nt h_ok, ?_, ?_, ?_⟩
  · intro h1 hr hp
    have e := unit_count_aint_eq c hr
    have hm := main c newtype nt h_ok (by rw [e]; omega)
    rw [e] at hm
    exact elements_in_range E oldtype _ nt hm hp
  · intro count blocklength stride newtype1 newtype2 nt1 nt2 hc h1 h2
    have hle : count * blocklength ≤ INT_MAX := by
      by_contra hgt
      simp only [MPIR_Typerep_create_contig, hgt, not_false_eq_true, if_true] at h2
      exact TypeResult.noConfusion h2
    have hr : in_aint_range (count * blocklength) := by
      unfold INT_MAX at hle
      constructor <;> omega
    have ev : (Ctor.vector count blocklength stride).unit_count_aint = count * blocklength :=
      unit_count_aint_eq (Ctor.vector count blocklength stride) hr
    have e1 := main (Ctor.vector count blocklength stride) newtype1 nt1 h1 (by rw [ev]; omega)
    have e2 := main (Ctor.contig (count * blocklength)) newtype2 nt2 h2
      (by simp only [Ctor.unit_count_aint]; omega)
    rw [ev] at e1
    simp only [Ctor.unit_count_aint, elements_in_aint] at e1 e2
    split_ifs at e1 e2
    all_goals
      obtain ⟨a1, a2, a3⟩ := e1
      obtain ⟨b1, b2, b3⟩ := e2
      exact ⟨a1.trans b1.symm, a2.trans b2.symm, a3.trans b3.symm⟩
  · intro lb extent newtype1 nt1 h
    have e : elements_in_aint E oldtype 1 nt1 := by
      rcases h with h | h
      · exact main Ctor.dup newtype1 nt1 h (by simp [Ctor.unit_count_aint])
      · exact main (Ctor.resized lb extent) newtype1 nt1 h (by simp [Ctor.unit_count_aint])
    simp only [elements_in_aint, one_mul] at e
    constructor
    · intro hb hr
      simp only [hb, Bool.false_eq_true, if_false] at e
      rw [wrap_aint_of_in_range _ hr] at e
      exact e
    · intro hb
      simpa [hb] using e

/-- Witness of C8: an indexed type of blocks of 2 and 3 elements of a derived type
with three `MPI_DOUBLE` elements has 15 builtin elements of size 8. -/
theorem C8_element_metadata_from_oldtype_in_range_witness :
    elements_from_oldtype (demo_env 2 120 120) demo_derived 5
      (MPIR_Datatype.mk 1 0 1 120 0 120 120 0 120 15 8 MPI_DOUBLE) :=
  (C8_element_metadata_from_oldtype_in_range (demo_env 2 120 120)
    (Ctor.indexed 2 (demo_triple 2 3 0) (demo_triple 0 4 0)) demo_derived stale_newtype
    (MPIR_Datatype.mk 1 0 1 120 0 120 120 0 120 15 8 MPI_DOUBLE) (by decide)).2.1
    (by decide) (by decide) (fun _ => by decide)

/-- C9 (evaluation of the code): `MPIR_Typerep_create_contig` with `count = 0`
over the builtin `MPI_INT` succeeds, and `n_builtin_elements`,
`builtin_element_size` and `basic_type` of the new type still hold what the
object held before the call (777, 888, 999), not values taken from `oldtype`;
the same happens for a vector with `blocklength = 0` and for an indexed type
whose blocklengths are all 0. -/
theorem C9_zero_count_keeps_previous_contents :
    MPIR_Typerep_create_contig (demo_env 0 0 0) 0 MPI_INT stale_newtype =
      TypeResult.ok (MPIR_Datatype.mk 1 0 0 0 0 0 0 0 0 777 888 999) ∧
    MPIR_Typerep_create_vector (demo_env 0 0 0) 5 0 1 MPI_INT stale_newtype =
      TypeResult.ok (MPIR_Datatype.mk 1 0 0 0 0 0 0 0 0 777 888 999) ∧
    MPIR_Typerep_create_indexed (demo_env 0 0 0) 2 (fun _ => 0) (demo_triple 0 4 0) MPI_INT
      stale_newtype = TypeResult.ok (MPIR_Datatype.mk 1 0 0 0 0 0 0 0 0 777 888 999) ∧
    (demo_env 0 0 0).HANDLE_IS_BUILTIN MPI_INT = true ∧
    (demo_env 0 0 0).MPIR_Datatype_get_basic_size MPI_INT = 4 := by
  decide

/-- C10: in `MPIR_Typerep_create_struct`, when the members with non-zero
blocklength all have element size `s`, a successful call leaves
`builtin_element_size = s`, and `basic_type = t` when those members all have
basic type `t`, `basic_type = MPI_DATATYPE_NULL` when they have no common basic
type.  Two member lists with the same members of non-zero blocklength give the
same result; without such a member the result is `builtin_element_size = 0`
and `basic_type = MPI_DATATYPE_NULL`; `n_builtin_elements` is -1 in every
case. -/
theorem C10_struct_same_size_summary (E : TypeEnv) (count : Int)
    (array_of_blocklengths array_of_displacements array_of_types : Nat → Int)
    (newtype nt : MPIR_Datatype)
    (h_ok : MPIR_Typerep_create_struct E count array_of_blocklengths array_of_displacements
      array_of_types newtype = TypeResult.ok nt) :
    nt.n_builtin_elements = -1 ∧
    ((∀ i : Nat, (i : Int) < count → array_of_blocklengths i = 0) →
      nt.builtin_element_size = 0 ∧ nt.basic_type = E.MPI_DATATYPE_NULL) ∧
    (∀ s : Int, (∃ i : Nat, (i : Int) < count ∧ array_of_blocklengths i ≠ 0) →
      (∀ i : Nat, (i : Int) < count → array_of_blocklengths i ≠ 0 →
        member_el_sz E array_of_types i = s) →
      nt.builtin_element_size = s ∧
      (∀ t : Int, (∀ i : Nat, (i : Int) < count → array_of_blocklengths i ≠ 0 →
        member_el_type E array_of_types i = t) → nt.basic_type = t) ∧
      ((¬ ∃ t : Int, ∀ i : Nat, (i : Int) < count → array_of_blocklengths i ≠ 0 →
        member_el_type E array_of_types i = t) → nt.basic_type = E.MPI_DATATYPE_NULL)) ∧
    (∀ (count' : Int) (blks' disps' types' : Nat → Int) (newtype' nt' : MPIR_Datatype),
      MPIR_Typerep_create_struct E count' blks' disps' types' newtype' = TypeResult.ok nt' →
      counted_members E count' blks' types' =
        counted_members E count array_of_blocklengths array_of_types →
      nt'.builtin_element_size = nt.builtin_element_size ∧ nt'.basic_type = nt.basic_type) := by
  obtain ⟨_, hn, hsz, hty⟩ := create_struct_ok E count _ _ _ _ _ h_ok
  refine ⟨hn, ?_, ?_, ?_⟩
  · intro hzero
    have hM : counted_members E count array_of_blocklengths array_of_types = [] := by
      apply List.eq_nil_iff_forall_not_mem.mpr
      intro a ha
      obtain ⟨i, hi, hb, _⟩ := (mem_counted_members E count _ _ a).mp ha
      exact hb (hzero i hi)
    rw [hsz, hty, hM]
    exact ⟨rfl, rfl⟩
  · intro s hex hs
    have hM : counted_members E count array_of_blocklengths array_of_types ≠ [] := by
      obtain ⟨i, hi, hb⟩ := hex
      exact List.ne_nil_of_mem ((mem_counted_members E count _ _ _).mpr ⟨i, hi, hb, rfl⟩)
    have hs' : ∀ a ∈ counted_members E count array_of_blocklengths array_of_types, a.1 = s := by
      intro a ha
      obtain ⟨i, hi, hb, rfl⟩ := (mem_counted_members E count _ _ a).mp ha
      exact hs i hi hb
    obtain ⟨k1, k2, k3⟩ := struct_summary_same_size E.MPI_DATATYPE_NULL s _ hM hs'
    refine ⟨hsz.trans k1, ?_, ?_⟩
    · intro t ht
      rw [hty]
      apply k2 t
      intro a ha
      obtain ⟨i, hi, hb, rfl⟩ := (mem_counted_members E count _ _ a).mp ha
      exact ht i hi hb
    · intro hno
      rw [hty]
      apply k3
      rintro ⟨t, ht⟩
      apply hno
      refine ⟨t, ?_⟩
      intro i hi hb
      exact ht _ ((mem_counted_members E count _ _ _).mpr ⟨i, hi, hb, rfl⟩)
  · intro count' blks' disps' types' newtype' nt' h' hM
    obtain ⟨_, _, hsz', hty'⟩ := create_struct_ok E count' _ _ _ _ _ h'
    rw [hsz', hty', hsz, hty, hM]
    exact ⟨rfl, rfl⟩

/-- Witness of C10: a struct of an `MPI_INT` member, a member of blocklength 0
and an `MPI_FLOAT` member keeps element size 4 and has no basic type. -/
theorem C10_struct_same_size_summary_witness :
    (MPIR_Datatype.mk 1 0 3 16 0 24 24 0 24 (-1) 4 0x0c000000).builtin_element_size = 4 ∧
    ((¬ ∃ t : Int, ∀ i : Nat, (i : Int) < 3 → demo_triple 1 0 1 i ≠ 0 →
        member_el_type (demo_env 6 16 24) (demo_triple MPI_INT MPI_DOUBLE MPI_FLOAT) i = t) →
      (MPIR_Datatype.mk 1 0 3 16 0 24 24 0 24 (-1) 4 0x0c000000).basic_type =
        (demo_env 6 16 24).MPI_DATATYPE_NULL) :=
  ⟨((C10_struct_same_size_summary (demo_env 6 16 24) 3 (demo_triple 1 0 1) (demo_array 0)
      (demo_triple MPI_INT MPI_DOUBLE MPI_FLOAT) stale_newtype
      (MPIR_Datatype.mk 1 0 3 16 0 24 24 0 24 (-1) 4 0x0c000000) (by decide)).2.2.1 4
      ⟨0, by decide, by decide⟩
      (fun i hi hb => by
        have h3 : i < 3 := by omega
        interval_cases i
        · decide
        · exact absurd rfl hb
        · decide)).1,
   ((C10_struct_same_size_summary (demo_env 6 16 24) 3 (demo_triple 1 0 1) (demo_array 0)
      (demo_triple MPI_INT MPI_DOUBLE MPI_FLOAT) stale_newtype
      (MPIR_Datatype.mk 1 0 3 16 0 24 24 0 24 (-1) 4 0x0c000000) (by decide)).2.2.1 4
      ⟨0, by decide, by decide⟩
      (fun i hi hb => by
        have h3 : i < 3 := by omega
        interval_cases i
        · decide
        · exact absurd rfl hb
        · decide)).2.2⟩

theorem filterMap_range_getElem? {α β : Type} (l : List α) (g : Option α → Option β) :
    (List.range l.length).filterMap (fun i => g l[i]?) = l.filterMap (fun a => g (some a)) := by
  induction l using List.reverseRecOn with
  | nil => rfl
  | append_singleton l a ih =>
    rw [List.length_append, List.length_singleton, List.range_succ, List.filterMap_append,
      List.filterMap_append]
    congr 1
    · rw [← ih]
      apply List.filterMap_congr
      intro i hi
      rw [List.getElem?_append_left (List.mem_range.mp hi)]
    · have e : (l ++ [a])[l.length]? = some a := by
        rw [List.getElem?_append_right (le_refl _)]
        simp
      simp only [List.filterMap_cons, List.filterMap_nil, e]

theorem counted_members_of_list (E : TypeEnv) (ms : List StructMember) :
    counted_members E (ms.length : Int) (blocklengths_of ms) (types_of ms) =
      ms.filterMap (counted_member E) := by
  unfold counted_members
  rw [Int.toNat_ofNat]
  have hfun : (fun i : Nat =>
      if blocklengths_of ms i = 0 then none
      else some (member_el_sz E (types_of ms) i, member_el_type E (types_of ms) i)) =
      (fun i : Nat => (fun o : Option StructMember => o.bind (counted_member E)) ms[i]?) := by
    funext i
    cases h : ms[i]? with
    | none => simp [blocklengths_of, h]
    | some m =>
      simp [blocklengths_of, types_of, counted_member, member_el_sz, member_el_type, h]
  rw [hfun]
  exact filterMap_range_getElem? ms (fun o => o.bind (counted_member E))

theorem struct_summary_perm (null : Int) (M M' : List (Int × Int)) (h : M.Perm M') :
    struct_summary null M = struct_summary null M' := by
  by_cases hM : M = []
  · subst hM
    rw [List.Perm.nil_eq h]
  · have hM' : M' ≠ [] := fun e => hM (List.Perm.eq_nil (e ▸ h))
    by_cases hmis : ∃ a ∈ M, ∃ b ∈ M, a.1 ≠ b.1
    · obtain ⟨a, ha, b, hb, hne⟩ := hmis
      rw [struct_summary_mismatch null M a b ha hb hne,
        struct_summary_mismatch null M' a b (h.mem_iff.mp ha) (h.mem_iff.mp hb) hne]
    · obtain ⟨x, hx⟩ := List.exists_mem_of_ne_nil M hM
      have hs : ∀ a ∈ M, a.1 = x.1 := by
        intro a ha
        by_contra hne
        exact hmis ⟨a, ha, x, hx, hne⟩
      have hs' : ∀ a ∈ M', a.1 = x.1 := fun a ha => hs a (h.mem_iff.mpr ha)
      obtain ⟨k1, k2, k3⟩ := struct_summary_same_size null x.1 M hM hs
      obtain ⟨j1, j2, j3⟩ := struct_summary_same_size null x.1 M' hM' hs'
      apply Prod.ext
      · rw [k1, j1]
      · by_cases ht : ∃ t : Int, ∀ a ∈ M, a.2 = t
        · obtain ⟨t, ht⟩ := ht
          rw [k2 t ht, j2 t (fun a ha => ht a (h.mem_iff.mpr ha))]
        · have ht' : ¬ ∃ t : Int, ∀ a ∈ M', a.2 = t := by
            rintro ⟨t, ht'⟩
            exact ht ⟨t, fun a ha => ht' a (h.mem_iff.mp ha)⟩
          rw [k3 ht, j3 ht']

/-- C11: the element summary of `MPIR_Typerep_create_struct` does not depend on
the order of the members: for a list of members and any permutation of it, the
loop over the members ends with the same `el_sz` and `el_type`, and two
successful calls leave the same `builtin_element_size` and `basic_type`. -/
theorem C11_struct_summary_order_independent (E : TypeEnv) (ms ms' : List StructMember)
    (newtype newtype' nt nt' : MPIR_Datatype) (h_perm : ms.Perm ms') :
    (struct_el_loop E (ms.length : Int) (blocklengths_of ms) (types_of ms)).el_sz =
      (struct_el_loop E (ms'.length : Int) (blocklengths_of ms') (types_of ms')).el_sz ∧
    (struct_el_loop E (ms.length : Int) (blocklengths_of ms) (types_of ms)).el_type =
      (struct_el_loop E (ms'.length : Int) (blocklengths_of ms') (types_of ms')).el_type ∧
    (MPIR_Typerep_create_struct E (ms.length : Int) (blocklengths_of ms) (displacements_of ms)
        (types_of ms) newtype = TypeResult.ok nt →
      MPIR_Typerep_create_struct E (ms'.length : Int) (blocklengths_of ms')
        (displacements_of ms') (types_of ms') newtype' = TypeResult.ok nt' →
      nt.builtin_element_size = nt'.builtin_element_size ∧ nt.basic_type = nt'.basic_type) := by
  have hsum : struct_summary E.MPI_DATATYPE_NULL
      (counted_members E (ms.length : Int) (blocklengths_of ms) (types_of ms)) =
      struct_summary E.MPI_DATATYPE_NULL
        (counted_members E (ms'.length : Int) (blocklengths_of ms') (types_of ms')) := by
    rw [counted_members_of_list, counted_members_of_list]
    exact struct_summary_perm _ _ _ (h_perm.filterMap _)
  refine ⟨?_, ?_, ?_⟩
  · rw [struct_el_loop_eq, struct_el_loop_eq, hsum]
  · rw [struct_el_loop_eq, struct_el_loop_eq, hsum]
  · intro h h'
    obtain ⟨_, _, hsz, hty⟩ := create_struct_ok E _ _ _ _ _ _ h
    obtain ⟨_, _, hsz', hty'⟩ := create_struct_ok E _ _ _ _ _ _ h'
    rw [hsz, hty, hsz', hty', hsum]
    exact ⟨rfl, rfl⟩

/-- Witness of C11: the members `MPI_INT`, `MPI_FLOAT`, `MPI_DOUBLE` (the last of
blocklength 0) and the same members with the first two exchanged both end the
loop with element size 4. -/
theorem C11_struct_summary_order_independent_witness :
    (struct_el_loop (demo_env 6 16 24) 3
        (blocklengths_of [StructMember.mk 1 0 MPI_FLOAT, StructMember.mk 2 8 MPI_INT,
          StructMember.mk 0 16 MPI_DOUBLE])
        (types_of [StructMember.mk 1 0 MPI_FLOAT, StructMember.mk 2 8 MPI_INT,
          StructMember.mk 0 16 MPI_DOUBLE])).el_sz = 4 :=
  (C11_struct_summary_order_independent (demo_env 6 16 24)
    [StructMember.mk 2 8 MPI_INT, StructMember.mk 1 0 MPI_FLOAT, StructMember.mk 0 16 MPI_DOUBLE]
    [StructMember.mk 1 0 MPI_FLOAT, StructMember.mk 2 8 MPI_INT, StructMember.mk 0 16 MPI_DOUBLE]
    stale_newtype stale_newtype stale_newtype stale_newtype
    (List.Perm.swap _ _ _)).1.symm.trans (by decide)

end Mpich
